import Mathlib

/-!
Verification of the view-composition core of the ao3-reader repository.

The definitions below are a shallow embedding of the Rust source:
  * `src/src/view/common.rs` — `shift`, `locate`, `rlocate`, `locate_by_id`,
    `toggle_main_menu`;
  * `src/crates/core/src/view/home.rs` — `Home::new`, `Home::open_search_bar`,
    `Home::toggle_search_bar`, `Home::toggle_keyboard`, the `Event::Focus`
    arm of `Home::handle_event`;
  * `src/src/view/works/mod.rs` — `Works::go_to_page`, `Works::go_to_neighbor`,
    `Works::toggle_keyboard`, `Works::toggle_go_to_page`.

Rust `Vec` indexing, `Vec::insert`, `Vec::drain` and `usize` underflow panic on
out-of-range arguments; the embedding models a panic as `Option.none`, so every
state-mutating operation returns an `Option`.  Machine integers (`i32`
coordinates) are modelled as `Int`; none of the verified operations get close
to the `i32` range on the inputs considered.

Leaf-widget internals (`Filler`, `SearchBar`, `Keyboard`, `Menu`, `TopBar`,
`Fave`, `WorkIndex`, the `geom.rs` rectangle utilities) are not part of the
given sources; where one of their behaviours matters it is modelled from the
spec, and marked as such, or abstracted into a parameter of `Geom`.
-/

/-- Modelled from the spec (§3, `geom.rs` not in the sources): an integer
point. -/
structure Point where
  x : Int
  y : Int
deriving DecidableEq, Repr

instance : Add Point := ⟨fun p q => ⟨p.x + q.x, p.y + q.y⟩⟩

instance : Neg Point := ⟨fun p => ⟨-p.x, -p.y⟩⟩

/-- Modelled from the spec (§3, `geom.rs` not in the sources): an axis-aligned
integer rectangle given by two corner points. -/
structure Rectangle where
  rmin : Point
  rmax : Point
deriving DecidableEq, Repr

/-- Modelled from the spec (§3): `Rectangle::default()` is the degenerate zero
rectangle. -/
def Rectangle.zero : Rectangle := ⟨⟨0, 0⟩, ⟨0, 0⟩⟩

/-- Modelled from the spec (§3): translation adds the delta to both corners
(Rust `Rectangle += Point`). -/
def Rectangle.translate (r : Rectangle) (p : Point) : Rectangle :=
  ⟨r.rmin + p, r.rmax + p⟩

/-- Modelled from the spec (§3): `absorb` computes the union bounding box. -/
def Rectangle.absorb (r s : Rectangle) : Rectangle :=
  ⟨⟨min r.rmin.x s.rmin.x, min r.rmin.y s.rmin.y⟩,
   ⟨max r.rmax.x s.rmax.x, max r.rmax.y s.rmax.y⟩⟩

/-- Modelled from the spec (§3): derived height of a rectangle. -/
def Rectangle.height (r : Rectangle) : Int := r.rmax.y - r.rmin.y

/-- Semantic tags (`ViewId`) used by the embedded operations. -/
inductive ViewId where
  | home
  | searchBar
  | mainMenu
  | batteryMenu
  | clockMenu
  | siteTextSearchInput
  | homeSearchInput
  | goToPage
  | goToPageInput
  | sortMenu
deriving DecidableEq, Repr

/-- The concrete child-widget types a container distinguishes with
`is::<T>()`. -/
inductive ChildKind where
  | filler
  | topBar
  | bottomBar
  | fave
  | searchBar
  | keyboard
  | menu
  | namedInput
  | notification
  | workIndex
deriving DecidableEq, Repr

/-- One direct child of a container: its dynamic widget type, rectangle,
process-unique id and optional semantic tag. -/
structure Child where
  kind : ChildKind
  rect : Rectangle
  id : Nat
  viewId : Option ViewId
deriving DecidableEq, Repr

/-- Refresh modes of the render queue (`UpdateMode`). -/
inductive UpdateMode where
  | full
  | gui
  | partialMode
  | fastMono
deriving DecidableEq, Repr

/-- One entry of the render queue; `owner = none` is an expose request
(`RenderData::expose`), `owner = some id` is `RenderData::new(id, ..)`. -/
structure RenderData where
  owner : Option Nat
  rect : Rectangle
  mode : UpdateMode
deriving DecidableEq, Repr

/-- `RenderData::new(id, rect, mode)`. -/
def RenderData.req (id : Nat) (r : Rectangle) (m : UpdateMode) : RenderData :=
  ⟨some id, r, m⟩

/-- `RenderData::expose(rect, mode)`. -/
def RenderData.expose (r : Rectangle) (m : UpdateMode) : RenderData :=
  ⟨none, r, m⟩

/-- Events that the embedded handlers emit on the hub. -/
inductive Event where
  | focus : Option ViewId → Event
deriving DecidableEq, Repr

/-- Run-time check: `some ()` when the condition holds, panic (`none`)
otherwise. -/
def ensure (p : Prop) [Decidable p] : Option Unit := if p then some () else none

/-- `Vec::insert(i, a)`: panics (`none`) when `i` exceeds the length. -/
def vinsert {α : Type} (i : Nat) (a : α) : List α → Option (List α)
  | [] => if i = 0 then some [a] else none
  | x :: xs =>
    match i with
    | 0 => some (a :: x :: xs)
    | n + 1 => (vinsert n a xs).map (x :: ·)

/-- `Vec::drain(a ..= b)` restricted to the draining-only uses in the source:
removes the elements at indices `a` to `b` inclusive; panics (`none`) when the
range is invalid. -/
def vdrain {α : Type} (a b : Nat) (l : List α) : Option (List α) :=
  if a ≤ b ∧ b < l.length then some (l.take a ++ l.drop (b + 1)) else none

/-- `Vec::remove(i)`: panics (`none`) when `i` is out of bounds. -/
def vremove {α : Type} (i : Nat) : List α → Option (List α)
  | [] => none
  | x :: xs =>
    match i with
    | 0 => some xs
    | n + 1 => (vremove n xs).map (x :: ·)

/-- In-place update of the element at index `i` (`children[i].rect_mut()` /
leaf `resize`); panics (`none`) out of bounds. -/
def vmodify {α : Type} (i : Nat) (f : α → α) : List α → Option (List α)
  | [] => none
  | x :: xs =>
    match i with
    | 0 => some (f x :: xs)
    | n + 1 => (vmodify n f xs).map (x :: ·)

/-- `common.rs::locate::<T>`: index of the first child of a given dynamic
type. -/
def locate (k : ChildKind) : List Child → Option Nat
  | [] => none
  | c :: cs => if c.kind = k then some 0 else (locate k cs).map (· + 1)

/-- `common.rs::rlocate::<T>`: index of the last child of a given dynamic
type. -/
def rlocate (k : ChildKind) : List Child → Option Nat
  | [] => none
  | c :: cs =>
    match rlocate k cs with
    | some i => some (i + 1)
    | none => if c.kind = k then some 0 else none

/-- `common.rs::locate_by_id`: index of the first child carrying the given
semantic tag. -/
def locateById (v : ViewId) : List Child → Option Nat
  | [] => none
  | c :: cs => if c.viewId = some v then some 0 else (locateById v cs).map (· + 1)

/-- Device- and widget-dependent geometry that the source obtains from code
that is not part of the given files (`CURRENT_DEVICE.dpi`, `scale_by_dpi`,
`halves`, `Keyboard::new`, `Menu::new`, `NamedInput::new`, `TopBar::new`,
`Fave::new`, `WorkIndex::get_works`).  Modelled from the spec (§6): DPI
scaling and widget construction are pure external queries, so they enter the
model as parameters. -/
structure Geom where
  smallHeight : Int
  bigHeight : Int
  thickness : Int
  smallThickness : Int
  bigThickness : Int
  kbAdjust : Rectangle → Rectangle
  menuRect : Rectangle → Rectangle
  goToPageRect : Rectangle
  topBarRect : Rectangle → Rectangle
  faveRect : Rectangle → Int → Rectangle
  shelfRenders : List RenderData

/-- The state of the `Home` container (`home.rs`): own id and rectangle, the
child vector, the anchor index, the focus owner and the pending query. -/
structure HomeState where
  id : Nat
  rect : Rectangle
  children : List Child
  shelfIndex : Nat
  focus : Option ViewId
  query : Option String
  nextId : Nat
deriving DecidableEq, Repr

/-- A `Home` state together with the event hub, the render queue and the
shared `context.kb_rect` layout hint. -/
structure HomeEnv where
  st : HomeState
  hub : List Event
  rq : List RenderData
  kbRect : Rectangle
deriving DecidableEq, Repr

/-- `Home::open_search_bar`: inserts the keyboard and its separator directly
before the bottom bar, then the search bar and its separator directly after
the anchor.  Panics (`none`) when the bottom bar is missing or an insertion
index is invalid. -/
def openSearchBar (g : Geom) (s : HomeState) : Option HomeState := do
  let index ← rlocate .bottomBar s.children
  let bottomBar ← s.children[index]?
  let kbRect0 : Rectangle :=
    ⟨⟨s.rect.rmin.x, bottomBar.rect.rmin.y - (g.smallHeight + 3 * g.bigHeight) + g.bigThickness⟩,
     ⟨s.rect.rmax.x, bottomBar.rect.rmin.y⟩⟩
  let kbRect := g.kbAdjust kbRect0
  let _ ← ensure (index ≠ 0)
  let c1 ← vinsert (index - 1) ⟨.keyboard, kbRect, s.nextId, none⟩ s.children
  let kidx ← rlocate .keyboard c1
  let kchild ← c1[kidx]?
  let keyboardPos := kchild.rect
  let sepK : Child :=
    ⟨.filler,
     ⟨⟨s.rect.rmin.x, keyboardPos.rmin.y - g.thickness⟩, ⟨s.rect.rmax.x, keyboardPos.rmin.y⟩⟩,
     s.nextId + 1, none⟩
  let c2 ← vinsert (index - 1) sepK c1
  let searchRect : Rectangle :=
    ⟨⟨s.rect.rmin.x, keyboardPos.rmin.y - g.smallHeight⟩, ⟨s.rect.rmax.x, keyboardPos.rmin.y⟩⟩
  let sb : Child := ⟨.searchBar, searchRect, s.nextId + 2, some .siteTextSearchInput⟩
  let c3 ← vinsert (s.shelfIndex + 1) sb c2
  let sepS : Child :=
    ⟨.filler,
     ⟨⟨s.rect.rmin.x, searchRect.rmin.y - g.thickness⟩, ⟨s.rect.rmax.x, searchRect.rmin.y⟩⟩,
     s.nextId + 3, none⟩
  let c4 ← vinsert (s.shelfIndex + 1) sepS c3
  some { s with children := c4, nextId := s.nextId + 4 }

/-- `Home::toggle_keyboard`.  Leaf `resize` on the shifted search-bar pair is
modelled from the spec (§4.1): the default leaf behaviour is a plain geometry
update of the node's rectangle. -/
def toggleKeyboardHome (g : Geom) (enable : Bool) (update : Bool) (_vid : Option ViewId)
    (e : HomeEnv) : Option HomeEnv := do
  let s := e.st
  let hsbChild ← s.children[s.shelfIndex + 2]?
  let hasSearchBar := hsbChild.kind = ChildKind.searchBar
  match rlocate .keyboard s.children with
  | some index =>
    if enable then some e else do
    let c1 ← s.children[s.shelfIndex + 1]?
    let yMin := c1.rect.rmin.y
    let ck ← s.children[index]?
    let _ ← ensure (index ≠ 0)
    let ck1 ← s.children[index - 1]?
    let rect := ck.rect.absorb ck1.rect
    let children1 ← vdrain (index - 1) index s.children
    let deltaY := rect.height
    let children2 ←
      if hasSearchBar then do
        let c1a ←
          vmodify (s.shelfIndex + 1) (fun c => { c with rect := c.rect.translate ⟨0, deltaY⟩ }) children1
        vmodify (s.shelfIndex + 2) (fun c => { c with rect := c.rect.translate ⟨0, deltaY⟩ }) c1a
      else some children1
    let s1 := { s with children := children2 }
    let hub1 := e.hub ++ [Event.focus none]
    let rq1 :=
      if update then
        e.rq ++ [RenderData.expose ⟨⟨s.rect.rmin.x, yMin⟩, ⟨s.rect.rmax.x, yMin + deltaY⟩⟩ .gui]
      else e.rq
    if update ∧ hasSearchBar then do
      let a ← s1.children[s.shelfIndex + 1]?
      let b ← s1.children[s.shelfIndex + 2]?
      some ⟨s1, hub1, rq1 ++ [RenderData.req a.id a.rect .gui, RenderData.req b.id b.rect .gui],
            Rectangle.zero⟩
    else some ⟨s1, hub1, rq1, Rectangle.zero⟩
  | none =>
    if ¬ enable then some e else do
    let s1 ← openSearchBar g s
    if update then
      if hasSearchBar then do
        let a ← s1.children[s.shelfIndex + 1]?
        let b ← s1.children[s.shelfIndex + 2]?
        let c ← s1.children[s.shelfIndex + 3]?
        let d ← s1.children[s.shelfIndex + 4]?
        some ⟨s1, e.hub,
              e.rq ++ [RenderData.req a.id a.rect .partialMode, RenderData.req b.id b.rect .gui,
                       RenderData.req c.id c.rect .gui, RenderData.req d.id d.rect .gui],
              e.kbRect⟩
      else do
        let a ← s1.children[s.shelfIndex + 1]?
        let b ← s1.children[s.shelfIndex + 2]?
        some ⟨s1, e.hub, e.rq ++ [RenderData.req a.id a.rect .gui, RenderData.req b.id b.rect .gui],
              e.kbRect⟩
    else some ⟨s1, e.hub, e.rq, e.kbRect⟩

/-- `Home::toggle_search_bar`. -/
def toggleSearchBarHome (g : Geom) (enable : Option Bool) (update : Bool)
    (e : HomeEnv) : Option HomeEnv := do
  let deltaY := g.smallHeight
  match rlocate .searchBar e.st.children with
  | some index =>
    if enable = some true then some e else do
    let e1 ←
      if e.st.focus = some ViewId.siteTextSearchInput then
        toggleKeyboardHome g false false (some ViewId.siteTextSearchInput) e
      else some e
    let _ ← ensure (index ≠ 0)
    let children1 ← vdrain (index - 1) index e1.st.children
    let children2 ←
      vmodify e1.st.shelfIndex
        (fun c => { c with rect := ⟨c.rect.rmin, ⟨c.rect.rmax.x, c.rect.rmax.y + deltaY⟩⟩ }) children1
    let s1 := { e1.st with children := children2, query := none }
    if update then do
      let rq1 := e1.rq ++ [RenderData.req s1.id s1.rect .gui]
      let _ ← ensure (s1.shelfIndex ≠ 0)
      let a ← s1.children[s1.shelfIndex - 1]?
      let b ← s1.children[s1.shelfIndex + 1]?
      some ⟨s1, e1.hub,
            rq1 ++ [RenderData.req a.id a.rect .partialMode, RenderData.req b.id b.rect .partialMode],
            e1.kbRect⟩
    else some ⟨s1, e1.hub, e1.rq, e1.kbRect⟩
  | none =>
    if enable = some false then some e else do
    let s1 ← openSearchBar g e.st
    let hub1 :=
      if s1.query = none then e.hub ++ [Event.focus (some ViewId.siteTextSearchInput)] else e.hub
    if update then do
      let _ ← ensure (s1.shelfIndex ≠ 0)
      let a ← s1.children[s1.shelfIndex - 1]?
      let sh ← s1.children[s1.shelfIndex]?
      let c1 ← s1.children[s1.shelfIndex + 1]?
      let rect1 : Rectangle := ⟨sh.rect.rmin, ⟨sh.rect.rmax.x, c1.rect.rmin.y⟩⟩
      let ce ← s1.children[s1.shelfIndex + 4]?
      let rect2 : Rectangle := ⟨⟨rect1.rmin.x, rect1.rmax.y⟩, ⟨rect1.rmax.x, ce.rect.rmax.y⟩⟩
      some ⟨s1, hub1,
            e.rq ++ [RenderData.req a.id a.rect .partialMode, RenderData.req sh.id rect1 .partialMode,
                     RenderData.expose rect2 .partialMode],
            e.kbRect⟩
    else some ⟨s1, hub1, e.rq, e.kbRect⟩

/-- The `Event::Focus` arm of `Home::handle_event`: record the new focus owner
and, for a non-empty target, open the keyboard. -/
def handleFocusHome (g : Geom) (v : Option ViewId) (e : HomeEnv) : Option HomeEnv :=
  if e.st.focus = v then some e
  else
    let e1 : HomeEnv := { e with st := { e.st with focus := v } }
    match v with
    | some _ => toggleKeyboardHome g true true v e1
    | none => some e1

/-- The operation sequence of the symmetry claim: force-open the search bar,
drain the hub's focus cascade, then force-close it. -/
def openCloseSeq (g : Geom) (e : HomeEnv) : Option HomeEnv := do
  let e1 ← toggleSearchBarHome g (some true) true e
  let e2 ← handleFocusHome g (some ViewId.siteTextSearchInput) e1
  toggleSearchBarHome g (some false) true e2

/-- The state of the `Works` container (`works/mod.rs`); fields not touched by
the embedded operations (sort method, visible books, directory) are omitted. -/
structure WorksState where
  id : Nat
  rect : Rectangle
  children : List Child
  currentPage : Nat
  pagesCount : Nat
  shelfIndex : Nat
  focus : Option ViewId
  nextId : Nat
deriving DecidableEq, Repr

/-- `Works::update_shelf` with `was_resized = false`: requires the anchor child
to be the work index (`downcast_mut::<WorkIndex>().unwrap()`), then lets the
work index enqueue its region requests.  `WorkIndex::get_works` is not in the
given sources; modelled from the spec (§4.2) as the opaque request list
`g.shelfRenders`. -/
def updateShelf (g : Geom) (s : WorksState) (rq : List RenderData) : Option (List RenderData) := do
  let w ← s.children[s.shelfIndex]?
  let _ ← ensure (w.kind = ChildKind.workIndex)
  some (rq ++ g.shelfRenders)

/-- `Works::go_to_page`: out-of-range targets are ignored before any state or
queue write.  `update_bottom_bar` is a commented-out no-op in the source. -/
def goToPage (g : Geom) (index : Nat) (s : WorksState) (rq : List RenderData) :
    Option (WorksState × List RenderData) := do
  if s.pagesCount ≤ index then some (s, rq) else do
  let s1 := { s with currentPage := index }
  let rq1 ← updateShelf g s1 rq
  some (s1, rq1)

/-- Page-cycling direction. -/
inductive CycleDir where
  | next
  | previous
deriving DecidableEq, Repr

/-- `Works::go_to_neighbor`. -/
def goToNeighbor (g : Geom) (dir : CycleDir) (s : WorksState) (rq : List RenderData) :
    Option (WorksState × List RenderData) := do
  match dir with
  | .next =>
    if s.currentPage < s.pagesCount - 1 then do
      let s1 := { s with currentPage := s.currentPage + 1 }
      let rq1 ← updateShelf g s1 rq
      some (s1, rq1)
    else some (s, rq)
  | .previous =>
    if 0 < s.currentPage then do
      let s1 := { s with currentPage := s.currentPage - 1 }
      let rq1 ← updateShelf g s1 rq
      some (s1, rq1)
    else some (s, rq)

/-- `Works::toggle_keyboard`.  In this container the open path pushes the
keyboard and THEN its separator at the end of the child vector, and the close
path does not shift the search-bar pair (that block is commented out). -/
def worksToggleKeyboard (g : Geom) (enable : Bool) (update : Bool) (_vid : Option ViewId)
    (s : WorksState) (hub : List Event) (rq : List RenderData) :
    Option (WorksState × List Event × List RenderData) := do
  let hsbChild ← s.children[s.shelfIndex + 1]?
  let hasSearchBar := hsbChild.kind = ChildKind.searchBar
  match rlocate .keyboard s.children with
  | some index =>
    if enable then some (s, hub, rq) else do
    let c1 ← s.children[s.shelfIndex + 1]?
    let yMin := c1.rect.rmin.y
    let ck ← s.children[index]?
    let _ ← ensure (index ≠ 0)
    let ck1 ← s.children[index - 1]?
    let rect := ck.rect.absorb ck1.rect
    let children1 ← vdrain (index - 1) index s.children
    let deltaY := rect.height
    let s1 := { s with children := children1 }
    let hub1 := hub ++ [Event.focus none]
    let rq1 :=
      if update then
        rq ++ [RenderData.expose ⟨⟨s.rect.rmin.x, yMin⟩, ⟨s.rect.rmax.x, yMin + deltaY⟩⟩ .gui]
      else rq
    if update ∧ hasSearchBar then do
      let a ← s1.children[s.shelfIndex + 1]?
      let b ← s1.children[s.shelfIndex + 2]?
      some (s1, hub1, rq1 ++ [RenderData.req a.id a.rect .gui, RenderData.req b.id b.rect .gui])
    else some (s1, hub1, rq1)
  | none =>
    if ¬ enable then some (s, hub, rq) else do
    let kbRect0 : Rectangle :=
      ⟨⟨s.rect.rmin.x, s.rect.rmax.y - (g.smallHeight + 3 * g.bigHeight) + g.bigThickness⟩,
       ⟨s.rect.rmax.x, s.rect.rmax.y - g.smallHeight - g.smallThickness⟩⟩
    let kbRect := g.kbAdjust kbRect0
    let kb : Child := ⟨.keyboard, kbRect, s.nextId, none⟩
    let sep : Child :=
      ⟨.filler, ⟨⟨s.rect.rmin.x, kbRect.rmin.y - g.thickness⟩, ⟨s.rect.rmax.x, kbRect.rmin.y⟩⟩,
       s.nextId + 1, none⟩
    let s1 := { s with children := s.children ++ [kb, sep], nextId := s.nextId + 2 }
    if update then
      if hasSearchBar then do
        let a ← s1.children[s.shelfIndex + 1]?
        let b ← s1.children[s.shelfIndex + 2]?
        let c ← s1.children[s.shelfIndex + 3]?
        let d ← s1.children[s.shelfIndex + 4]?
        some (s1, hub,
              rq ++ [RenderData.req a.id a.rect .partialMode, RenderData.req b.id b.rect .gui,
                     RenderData.req c.id c.rect .gui, RenderData.req d.id d.rect .gui])
      else do
        let a ← s1.children[s.shelfIndex + 1]?
        let b ← s1.children[s.shelfIndex + 2]?
        some (s1, hub, rq ++ [RenderData.req a.id a.rect .gui, RenderData.req b.id b.rect .gui])
    else some (s1, hub, rq)

/-- `Works::toggle_go_to_page`.  `NamedInput::new` is not in the given
sources; its rectangle is the `Geom` parameter `goToPageRect`. -/
def toggleGoToPage (g : Geom) (enable : Option Bool) (s : WorksState)
    (hub : List Event) (rq : List RenderData) :
    Option (WorksState × List Event × List RenderData) := do
  match locateById .goToPage s.children with
  | some index =>
    if enable = some true then some (s, hub, rq) else do
    let c ← s.children[index]?
    let rq1 := rq ++ [RenderData.expose c.rect .gui]
    let children1 ← vremove index s.children
    let s1 := { s with children := children1 }
    if s1.focus = some ViewId.goToPageInput then
      worksToggleKeyboard g false true (some ViewId.goToPageInput) s1 hub rq1
    else some (s1, hub, rq1)
  | none =>
    if enable = some false then some (s, hub, rq) else do
    if s.pagesCount < 2 then some (s, hub, rq) else do
    let gp : Child := ⟨.namedInput, g.goToPageRect, s.nextId, some .goToPage⟩
    some ({ s with children := s.children ++ [gp], nextId := s.nextId + 1 },
          hub ++ [Event.focus (some ViewId.goToPageInput)],
          rq ++ [RenderData.req s.nextId g.goToPageRect .gui])

/-- `common.rs::toggle_main_menu`, reduced to its effect on the child vector
and the render queue; the menu entry payload is display data with no bearing
on tree structure.  `Menu::new` is not in the given sources; its rectangle is
the `Geom` parameter `menuRect`. -/
def toggleMainMenu (g : Geom) (rect : Rectangle) (enable : Option Bool)
    (children : List Child) (rq : List RenderData) (nextId : Nat) :
    Option (List Child × List RenderData × Nat) := do
  match locateById .mainMenu children with
  | some index =>
    if enable = some true then some (children, rq, nextId) else do
    let c ← children[index]?
    let rq1 := rq ++ [RenderData.expose c.rect .gui]
    let children1 ← vremove index children
    some (children1, rq1, nextId)
  | none =>
    if enable = some false then some (children, rq, nextId) else do
    let m : Child := ⟨.menu, g.menuRect rect, nextId, some .mainMenu⟩
    some (children ++ [m], rq ++ [RenderData.req nextId (g.menuRect rect) .gui], nextId + 1)

/-- The favourite-creation loop of `Home::new`: pushes one `Fave` row per
entry, stopping early as soon as the next row would cross `bbTop`; returns the
extended child vector, the next id, and the index of the last favourite
pushed. -/
def favLoop (g : Geom) (hrect : Rectangle) (bbTop : Int) :
    List String → Int → List Child → Nat → Option Nat → List Child × Nat × Option Nat
  | [], _, cs, nid, last => (cs, nid, last)
  | _ :: fs, topPos, cs, nid, _ =>
    let r := g.faveRect hrect topPos
    let cs1 := cs ++ [⟨.fave, r, nid, none⟩]
    let topPos1 := r.rmax.y
    let rowH := r.height
    if bbTop < topPos1 + rowH then (cs1, nid + 1, some (cs1.length - 1))
    else favLoop g hrect bbTop fs topPos1 cs1 (nid + 1) (some (cs1.length - 1))

/-- `Home::new`: background, top bar, optional marked-for-later row, the
favourite rows, anchor index, separator and bottom bar; also returns the index
of the last favourite pushed, and the full-mode render request.  `TopBar::new`
and `Fave::new` are not in the given sources; their rectangles are the `Geom`
parameters `topBarRect` and `faveRect`. -/
def homeNew (g : Geom) (rect : Rectangle) (loggedIn : Bool) (faves : List String)
    (rq : List RenderData) : Option (HomeState × List RenderData × Option Nat) := do
  let bg : Child := ⟨.filler, rect, 1, none⟩
  let tb : Child := ⟨.topBar, g.topBarRect rect, 2, none⟩
  let children0 := [bg, tb]
  let tIdx ← rlocate .topBar children0
  let tbc ← children0[tIdx]?
  let topPos0 := tbc.rect.height
  let stage1 :=
    if loggedIn then
      (children0 ++ [⟨.fave, g.faveRect rect topPos0, 3, none⟩], (4 : Nat))
    else (children0, (3 : Nat))
  let children1 := stage1.1
  let topPos1 ←
    if loggedIn then do
      let lastc ← children1[children1.length - 1]?
      some lastc.rect.rmax.y
    else some topPos0
  let bbTop := rect.rmin.y
  let looped := favLoop g rect bbTop faves topPos1 children1 stage1.2 none
  let children2 := looped.1
  let shelfIndex := children2.length - 1
  let sep : Child :=
    ⟨.filler,
     ⟨⟨rect.rmin.x, rect.rmax.y - g.smallHeight - g.smallThickness⟩,
      ⟨rect.rmax.x, rect.rmax.y - g.smallHeight + g.bigThickness⟩⟩,
     looped.2.1, none⟩
  let bb : Child :=
    ⟨.bottomBar,
     ⟨⟨rect.rmin.x, rect.rmax.y - g.smallHeight + g.bigThickness⟩, ⟨rect.rmax.x, rect.rmax.y⟩⟩,
     looped.2.1 + 1, none⟩
  let st : HomeState :=
    ⟨0, rect, children2 ++ [sep, bb], shelfIndex, none, none, looped.2.1 + 2⟩
  some (st, rq ++ [RenderData.req 0 rect .full], looped.2.2)

mutual

/-- A recursive view tree: every node owns a rectangle and an ordered forest
of children (§4.1); containers in the claims above are modelled at one level,
this type carries the full recursion that `common.rs::shift` walks. -/
inductive ViewTree where
  | node : Rectangle → ViewForest → ViewTree

/-- An ordered forest of sibling view trees. -/
inductive ViewForest where
  | nil : ViewForest
  | cons : ViewTree → ViewForest → ViewForest

end

mutual

/-- `common.rs::shift`: translate the node's rectangle and recurse into every
child. -/
def shiftT (d : Point) : ViewTree → ViewTree
  | .node r cs => .node (r.translate d) (shiftF d cs)

/-- `shiftT` mapped over a forest. -/
def shiftF (d : Point) : ViewForest → ViewForest
  | .nil => .nil
  | .cons t ts => .cons (shiftT d t) (shiftF d ts)

end

mutual

/-- The preorder list of all rectangles in a tree. -/
def rectsT : ViewTree → List Rectangle
  | .node r cs => r :: rectsF cs

/-- The preorder list of all rectangles in a forest. -/
def rectsF : ViewForest → List Rectangle
  | .nil => []
  | .cons t ts => rectsT t ++ rectsF ts

end

/-- No child of the list has the given dynamic type. -/
def kindFree (k : ChildKind) (l : List Child) : Prop := ∀ c ∈ l, c.kind ≠ k

instance (k : ChildKind) (l : List Child) : Decidable (kindFree k l) := by
  unfold kindFree
  infer_instance

/-- Number of children of the given dynamic type. -/
def countKind (k : ChildKind) (l : List Child) : Nat :=
  l.countP (fun c => decide (c.kind = k))

/-- The rectangle `open_search_bar` requests for the keyboard before
`Keyboard::new` adjusts it. -/
def kbRequestRect (g : Geom) (r : Rectangle) (bbRect : Rectangle) : Rectangle :=
  ⟨⟨r.rmin.x, bbRect.rmin.y - (g.smallHeight + 3 * g.bigHeight) + g.bigThickness⟩,
   ⟨r.rmax.x, bbRect.rmin.y⟩⟩

/-- The top edge of the keyboard created by `open_search_bar`. -/
def kbTop (g : Geom) (r : Rectangle) (bbRect : Rectangle) : Int :=
  (g.kbAdjust (kbRequestRect g r bbRect)).rmin.y

/-- The keyboard child created by `open_search_bar`. -/
def kbChild (g : Geom) (r : Rectangle) (bbRect : Rectangle) (nid : Nat) : Child :=
  ⟨.keyboard, g.kbAdjust (kbRequestRect g r bbRect), nid, none⟩

/-- The keyboard separator created by `open_search_bar`. -/
def sepKChild (g : Geom) (r : Rectangle) (bbRect : Rectangle) (nid : Nat) : Child :=
  ⟨.filler, ⟨⟨r.rmin.x, kbTop g r bbRect - g.thickness⟩, ⟨r.rmax.x, kbTop g r bbRect⟩⟩,
   nid + 1, none⟩

/-- The search-bar child created by `open_search_bar`. -/
def sbChild (g : Geom) (r : Rectangle) (bbRect : Rectangle) (nid : Nat) : Child :=
  ⟨.searchBar, ⟨⟨r.rmin.x, kbTop g r bbRect - g.smallHeight⟩, ⟨r.rmax.x, kbTop g r bbRect⟩⟩,
   nid + 2, some .siteTextSearchInput⟩

/-- The search-bar separator created by `open_search_bar`. -/
def sepSChild (g : Geom) (r : Rectangle) (bbRect : Rectangle) (nid : Nat) : Child :=
  ⟨.filler,
   ⟨⟨r.rmin.x, kbTop g r bbRect - g.smallHeight - g.thickness⟩,
    ⟨r.rmax.x, kbTop g r bbRect - g.smallHeight⟩⟩,
   nid + 3, none⟩

/-- The four children `open_search_bar` creates, in the vector order they end
up in directly after the anchor. -/
def openedQuad (g : Geom) (r : Rectangle) (bbRect : Rectangle) (nid : Nat) : List Child :=
  [sepSChild g r bbRect nid, sbChild g r bbRect nid, sepKChild g r bbRect nid,
   kbChild g r bbRect nid]

/-- A sample geometry: 300-dpi-like scaled constants, `Keyboard::new` and
`Menu::new` keeping the requested rectangle, and one opaque shelf render
request. -/
def gC : Geom :=
  ⟨68, 100, 4, 2, 2, fun r => r, fun r => r, ⟨⟨100, 100⟩, ⟨500, 300⟩⟩,
   fun r => ⟨r.rmin, ⟨r.rmax.x, r.rmin.y + 68⟩⟩,
   fun r t => ⟨⟨r.rmin.x, t⟩, ⟨r.rmax.x, t + 62⟩⟩,
   [RenderData.req 99 Rectangle.zero .gui]⟩

/-- The 600x800 screen rectangle used by the sample states. -/
def rectC : Rectangle := ⟨⟨0, 0⟩, ⟨600, 800⟩⟩

/-- A closed home screen: background, top bar, one favourite (the anchor),
bottom separator and bottom bar. -/
def closedHome : HomeState :=
  ⟨0, rectC,
   [⟨.filler, rectC, 1, none⟩,
    ⟨.topBar, ⟨⟨0, 0⟩, ⟨600, 68⟩⟩, 2, none⟩,
    ⟨.fave, ⟨⟨0, 68⟩, ⟨600, 130⟩⟩, 3, none⟩,
    ⟨.filler, ⟨⟨0, 730⟩, ⟨600, 734⟩⟩, 4, none⟩,
    ⟨.bottomBar, ⟨⟨0, 734⟩, ⟨600, 800⟩⟩, 5, none⟩],
   2, none, none, 6⟩

/-- The closed home screen with empty hub and queue. -/
def env0 : HomeEnv := ⟨closedHome, [], [], Rectangle.zero⟩

/-- A home screen in the search-only state: search bar present, keyboard
absent (the state reached between keyboard dismissal and search-bar
removal). -/
def searchOnlyHome : HomeState :=
  ⟨0, rectC,
   [⟨.filler, rectC, 1, none⟩,
    ⟨.topBar, ⟨⟨0, 0⟩, ⟨600, 68⟩⟩, 2, none⟩,
    ⟨.fave, ⟨⟨0, 68⟩, ⟨600, 130⟩⟩, 3, none⟩,
    ⟨.filler, ⟨⟨0, 296⟩, ⟨600, 300⟩⟩, 9, none⟩,
    ⟨.searchBar, ⟨⟨0, 300⟩, ⟨600, 368⟩⟩, 8, some .siteTextSearchInput⟩,
    ⟨.filler, ⟨⟨0, 730⟩, ⟨600, 734⟩⟩, 4, none⟩,
    ⟨.bottomBar, ⟨⟨0, 734⟩, ⟨600, 800⟩⟩, 5, none⟩],
   2, none, none, 10⟩

/-- The search-only home screen with empty hub and queue. -/
def searchOnlyEnv : HomeEnv := ⟨searchOnlyHome, [], [], Rectangle.zero⟩

/-- A home screen in the search-with-keyboard state (the state produced by
opening the search bar on `closedHome`), already focused on the search
input. -/
def swkHome : HomeState :=
  ⟨0, rectC,
   [⟨.filler, rectC, 1, none⟩,
    ⟨.topBar, ⟨⟨0, 0⟩, ⟨600, 68⟩⟩, 2, none⟩,
    ⟨.fave, ⟨⟨0, 68⟩, ⟨600, 130⟩⟩, 3, none⟩,
    ⟨.filler, ⟨⟨0, 296⟩, ⟨600, 300⟩⟩, 9, none⟩,
    ⟨.searchBar, ⟨⟨0, 300⟩, ⟨600, 368⟩⟩, 8, some .siteTextSearchInput⟩,
    ⟨.filler, ⟨⟨0, 364⟩, ⟨600, 368⟩⟩, 7, none⟩,
    ⟨.keyboard, ⟨⟨0, 368⟩, ⟨600, 734⟩⟩, 6, none⟩,
    ⟨.filler, ⟨⟨0, 730⟩, ⟨600, 734⟩⟩, 4, none⟩,
    ⟨.bottomBar, ⟨⟨0, 734⟩, ⟨600, 800⟩⟩, 5, none⟩],
   2, some .siteTextSearchInput, none, 10⟩

/-- The search-with-keyboard home screen with empty hub and queue and the
keyboard rectangle recorded in the context. -/
def swkEnv : HomeEnv := ⟨swkHome, [], [], ⟨⟨0, 368⟩, ⟨600, 734⟩⟩⟩

/-- A freshly built works screen: top bar and work index only, as
`Works::new` leaves it. -/
def worksShort : WorksState :=
  ⟨0, rectC,
   [⟨.topBar, ⟨⟨0, 0⟩, ⟨600, 70⟩⟩, 1, none⟩,
    ⟨.workIndex, ⟨⟨0, 70⟩, ⟨600, 800⟩⟩, 2, none⟩],
   0, 5, 1, none, 3⟩

/-- A works screen whose child at `shelf_index + 1` exists but is a plain
filler, not the search bar the index arithmetic presumes. -/
def worksFillerAfterShelf : WorksState :=
  ⟨0, rectC,
   [⟨.topBar, ⟨⟨0, 0⟩, ⟨600, 70⟩⟩, 1, none⟩,
    ⟨.workIndex, ⟨⟨0, 70⟩, ⟨600, 800⟩⟩, 2, none⟩,
    ⟨.filler, ⟨⟨0, 700⟩, ⟨600, 704⟩⟩, 3, none⟩],
   0, 5, 1, none, 4⟩

/-- The works screen with an open go-to-page dialog. -/
def worksWithGoTo : WorksState :=
  ⟨0, rectC,
   [⟨.topBar, ⟨⟨0, 0⟩, ⟨600, 70⟩⟩, 1, none⟩,
    ⟨.workIndex, ⟨⟨0, 70⟩, ⟨600, 800⟩⟩, 2, none⟩,
    ⟨.filler, ⟨⟨0, 700⟩, ⟨600, 704⟩⟩, 3, none⟩,
    ⟨.namedInput, ⟨⟨100, 100⟩, ⟨500, 300⟩⟩, 9, some .goToPage⟩],
   0, 5, 1, none, 10⟩

/-- The closed home screen with a stale anchor index: `shelf_index + 2` lies
past the end of the child vector. -/
def staleShelfHomeEnv : HomeEnv :=
  ⟨{ closedHome with shelfIndex := 3 }, [], [], Rectangle.zero⟩

/-- A single open main menu child. -/
def menuChildren : List Child := [⟨.menu, ⟨⟨100, 100⟩, ⟨500, 300⟩⟩, 50, some .mainMenu⟩]

/-- A sample child vector with two faves for the lookup claims. -/
def demoList : List Child :=
  [⟨.topBar, ⟨⟨0, 0⟩, ⟨600, 68⟩⟩, 1, none⟩,
   ⟨.fave, ⟨⟨0, 68⟩, ⟨600, 130⟩⟩, 2, none⟩,
   ⟨.filler, ⟨⟨0, 130⟩, ⟨600, 134⟩⟩, 3, none⟩,
   ⟨.fave, ⟨⟨0, 134⟩, ⟨600, 196⟩⟩, 4, none⟩,
   ⟨.bottomBar, ⟨⟨0, 734⟩, ⟨600, 800⟩⟩, 5, none⟩]

theorem Point.add_def (p q : Point) : p + q = ⟨p.x + q.x, p.y + q.y⟩ := rfl

theorem Point.neg_def (p : Point) : -p = ⟨-p.x, -p.y⟩ := rfl

theorem ensure_pos {p : Prop} [Decidable p] (h : p) : ensure p = some () := if_pos h

theorem ensure_neg {p : Prop} [Decidable p] (h : ¬ p) : ensure p = none := if_neg h

theorem vinsert_append {α : Type} (l1 l2 : List α) (a : α) :
    vinsert l1.length a (l1 ++ l2) = some (l1 ++ a :: l2) := by
  induction l1 with
  | nil =>
    cases l2 <;> simp [vinsert]
  | cons x xs ih =>
    simp [vinsert, ih]

theorem vdrain_append {α : Type} (l1 l2 : List α) (a b : Nat) :
    vdrain (l1.length + a) (l1.length + b) (l1 ++ l2) = (vdrain a b l2).map (l1 ++ ·) := by
  unfold vdrain
  by_cases h : a ≤ b ∧ b < l2.length
  · have h1 : l1.length + a ≤ l1.length + b ∧ l1.length + b < (l1 ++ l2).length := by
      constructor
      · exact Nat.add_le_add_left h.1 _
      · simp only [List.length_append]
        omega
    rw [if_pos h1, if_pos h]
    have ht : (l1 ++ l2).take (l1.length + a) = l1 ++ l2.take a := List.take_append ..
    have hd : (l1 ++ l2).drop (l1.length + b + 1) = l2.drop (b + 1) := by
      have : l1.length + b + 1 = l1.length + (b + 1) := by omega
      rw [this]
      exact List.drop_append ..
    simp [ht, hd]
  · have h1 : ¬ (l1.length + a ≤ l1.length + b ∧ l1.length + b < (l1 ++ l2).length) := by
      simp only [List.length_append]
      omega
    rw [if_neg h1, if_neg h]
    simp

theorem getq_append {α : Type} (l1 l2 : List α) (i : Nat) :
    (l1 ++ l2)[l1.length + i]? = l2[i]? := by
  rw [List.getElem?_append_right (by omega)]
  simp

theorem vmodify_append {α : Type} (l1 l2 : List α) (i : Nat) (f : α → α) :
    vmodify (l1.length + i) f (l1 ++ l2) = (vmodify i f l2).map (l1 ++ ·) := by
  induction l1 with
  | nil =>
    simp
  | cons x xs ih =>
    have : xs.length + 1 + i = (xs.length + i) + 1 := by omega
    simp only [List.cons_append, List.length_cons, this, vmodify, ih]
    cases h : vmodify i f l2 <;> simp

theorem rlocate_append_of_some {k : ChildKind} {l2 : List Child} {i : Nat}
    (l1 : List Child) (h : rlocate k l2 = some i) :
    rlocate k (l1 ++ l2) = some (l1.length + i) := by
  induction l1 with
  | nil => simpa using h
  | cons x xs ih =>
    simp only [List.cons_append, rlocate, List.append_eq, ih, List.length_cons]
    congr 1
    omega

theorem rlocate_append_of_none {k : ChildKind} {l2 : List Child}
    (l1 : List Child) (h : rlocate k l2 = none) :
    rlocate k (l1 ++ l2) = rlocate k l1 := by
  induction l1 with
  | nil => simpa using h
  | cons x xs ih =>
    simp only [List.cons_append, rlocate, List.append_eq, ih]

theorem rlocate_eq_none_iff {k : ChildKind} {l : List Child} :
    rlocate k l = none ↔ kindFree k l := by
  induction l with
  | nil => simp [rlocate, kindFree]
  | cons x xs ih =>
    simp only [rlocate, kindFree, List.mem_cons]
    constructor
    · intro h
      cases hx : rlocate k xs with
      | some j => rw [hx] at h; cases h
      | none =>
        rw [hx] at h
        intro c hc
        rcases hc with rfl | hc
        · by_contra hk
          simp [hk] at h
        · exact (ih.mp hx) c hc
    · intro h
      have hx : rlocate k xs = none := ih.mpr (fun c hc => h c (Or.inr hc))
      rw [hx]
      simp only [if_neg (h x (Or.inl rfl))]

theorem locate_append_of_none {k : ChildKind} {l1 : List Child}
    (l2 : List Child) (h : locate k l1 = none) :
    locate k (l1 ++ l2) = (locate k l2).map (l1.length + ·) := by
  induction l1 with
  | nil =>
    simp
  | cons x xs ih =>
    simp only [locate, List.cons_append] at h ⊢
    by_cases hx : x.kind = k
    · simp [hx] at h
    · simp only [hx, if_false] at h ⊢
      have hxs : locate k xs = none := by
        cases hh : locate k xs with
        | none => rfl
        | some j => rw [hh] at h; cases h
      rw [show xs.append l2 = xs ++ l2 from rfl, ih hxs]
      cases hl : locate k l2 with
      | none => simp
      | some j =>
        show some (xs.length + j + 1) = some (xs.length + 1 + j)
        congr 1
        omega

theorem locate_eq_none_iff {k : ChildKind} {l : List Child} :
    locate k l = none ↔ kindFree k l := by
  induction l with
  | nil => simp [locate, kindFree]
  | cons x xs ih =>
    simp only [locate, kindFree, List.mem_cons]
    by_cases hx : x.kind = k
    · simp [hx]
    · simp only [hx, if_false]
      constructor
      · intro h
        have hxs : locate k xs = none := by
          cases hh : locate k xs with
          | none => rfl
          | some j => rw [hh] at h; cases h
        intro c hc
        rcases hc with rfl | hc
        · exact hx
        · exact (ih.mp hxs) c hc
      · intro h
        have : locate k xs = none := ih.mpr (fun c hc => h c (Or.inr hc))
        simp [this]

theorem vmodify_append_left {α : Type} (l1 l2 : List α) (i : Nat) (f : α → α)
    (h : i < l1.length) :
    vmodify i f (l1 ++ l2) = (vmodify i f l1).map (· ++ l2) := by
  induction l1 generalizing i with
  | nil => simp at h
  | cons x xs ih =>
    match i with
    | 0 => simp [vmodify]
    | n + 1 =>
      have hn : n < xs.length := by simpa using h
      simp only [List.cons_append, vmodify]
      rw [show xs.append l2 = xs ++ l2 from rfl, ih n hn]
      cases hv : vmodify n f xs <;> simp

theorem openSearchBar_closed (g : Geom) (s : HomeState) (front : List Child) (sep bb : Child)
    (hch : s.children = front ++ [sep, bb])
    (hsh : s.shelfIndex + 1 = front.length)
    (hsepk : sep.kind ≠ ChildKind.keyboard)
    (hbb : bb.kind = ChildKind.bottomBar) :
    openSearchBar g s =
      some { s with
             children := front ++ openedQuad g s.rect bb.rect s.nextId ++ [sep, bb],
             nextId := s.nextId + 4 } := by
  have h1 : rlocate .bottomBar (front ++ [sep, bb]) = some (front.length + 1) := by
    apply rlocate_append_of_some
    simp [rlocate, hbb]
  have h2 : (front ++ [sep, bb])[front.length + 1]? = some bb := by
    have := getq_append front [sep, bb] 1
    simpa using this
  have h3 : vinsert front.length
      (⟨.keyboard, g.kbAdjust (kbRequestRect g s.rect bb.rect), s.nextId, none⟩ : Child)
      (front ++ [sep, bb]) =
      some (front ++
        [⟨.keyboard, g.kbAdjust (kbRequestRect g s.rect bb.rect), s.nextId, none⟩, sep, bb]) :=
    vinsert_append ..
  have h4 : rlocate .keyboard
      (front ++ [⟨.keyboard, g.kbAdjust (kbRequestRect g s.rect bb.rect), s.nextId, none⟩, sep, bb]) =
      some front.length := by
    have := @rlocate_append_of_some ChildKind.keyboard
      [⟨.keyboard, g.kbAdjust (kbRequestRect g s.rect bb.rect), s.nextId, none⟩, sep, bb]
      0 front (by simp [rlocate, hsepk, hbb])
    simpa using this
  have h5 : (front ++
      [⟨.keyboard, g.kbAdjust (kbRequestRect g s.rect bb.rect), s.nextId, none⟩, sep, bb])[front.length]? =
      some ⟨.keyboard, g.kbAdjust (kbRequestRect g s.rect bb.rect), s.nextId, none⟩ := by
    have := getq_append front
      [⟨.keyboard, g.kbAdjust (kbRequestRect g s.rect bb.rect), s.nextId, none⟩, sep, bb] 0
    simpa using this
  have e1 : front.length + 1 - 1 = front.length := by omega
  have e2 : ensure (front.length + 1 ≠ 0) = some () := ensure_pos (by omega)
  simp only [kbRequestRect] at h3 h4 h5
  simp only [openSearchBar, hch, h1, Option.bind_eq_bind, Option.some_bind, h2, e1, e2, h3, h4, h5,
    hsh, vinsert_append, openedQuad, kbChild, sepKChild, sbChild, sepSChild, kbTop, kbRequestRect]
  simp [List.append_assoc]

theorem toggleSearchBarHome_open_eq (g : Geom) (e : HomeEnv) (pre : List Child)
    (prev anchor sep bb : Child)
    (hch : e.st.children = pre ++ [prev, anchor, sep, bb])
    (hsh : e.st.shelfIndex = pre.length + 1)
    (hsb : kindFree ChildKind.searchBar e.st.children)
    (hsepk : sep.kind ≠ ChildKind.keyboard)
    (hbb : bb.kind = ChildKind.bottomBar) :
    toggleSearchBarHome g (some true) true e =
      some ⟨{ e.st with
              children := pre ++ [prev, anchor] ++ openedQuad g e.st.rect bb.rect e.st.nextId
                            ++ [sep, bb],
              nextId := e.st.nextId + 4 },
            (if e.st.query = none then e.hub ++ [Event.focus (some ViewId.siteTextSearchInput)]
             else e.hub),
            e.rq ++
              [RenderData.req prev.id prev.rect .partialMode,
               RenderData.req anchor.id
                 ⟨anchor.rect.rmin,
                  ⟨anchor.rect.rmax.x, kbTop g e.st.rect bb.rect - g.smallHeight - g.thickness⟩⟩
                 .partialMode,
               RenderData.expose
                 ⟨⟨anchor.rect.rmin.x, kbTop g e.st.rect bb.rect - g.smallHeight - g.thickness⟩,
                  ⟨anchor.rect.rmax.x, (g.kbAdjust (kbRequestRect g e.st.rect bb.rect)).rmax.y⟩⟩
                 .partialMode],
            e.kbRect⟩ := by
  have hF : e.st.children = (pre ++ [prev, anchor]) ++ [sep, bb] := by simp [hch]
  have hFsh : e.st.shelfIndex + 1 = (pre ++ [prev, anchor]).length := by
    simp [hsh]
  have hopen := openSearchBar_closed g e.st (pre ++ [prev, anchor]) sep bb hF hFsh hsepk hbb
  have hnone : rlocate .searchBar e.st.children = none := rlocate_eq_none_iff.mpr hsb
  have e2 : ensure (pre.length + 1 ≠ 0) = some () := ensure_pos (by omega)
  have hassoc : pre ++ [prev, anchor] ++ openedQuad g e.st.rect bb.rect e.st.nextId ++ [sep, bb]
      = pre ++ ([prev, anchor] ++ (openedQuad g e.st.rect bb.rect e.st.nextId ++ [sep, bb])) := by
    simp
  have ha : (pre ++ [prev, anchor] ++ openedQuad g e.st.rect bb.rect e.st.nextId
      ++ [sep, bb])[pre.length]? = some prev := by
    rw [hassoc]
    have := getq_append pre ([prev, anchor] ++ (openedQuad g e.st.rect bb.rect e.st.nextId ++ [sep, bb])) 0
    simpa using this
  have hb : (pre ++ [prev, anchor] ++ openedQuad g e.st.rect bb.rect e.st.nextId
      ++ [sep, bb])[pre.length + 1]? = some anchor := by
    rw [hassoc]
    have := getq_append pre ([prev, anchor] ++ (openedQuad g e.st.rect bb.rect e.st.nextId ++ [sep, bb])) 1
    simpa using this
  have hc : (pre ++ [prev, anchor] ++ openedQuad g e.st.rect bb.rect e.st.nextId
      ++ [sep, bb])[pre.length + 1 + 1]? = some (sepSChild g e.st.rect bb.rect e.st.nextId) := by
    rw [hassoc]
    have := getq_append pre ([prev, anchor] ++ (openedQuad g e.st.rect bb.rect e.st.nextId ++ [sep, bb])) 2
    simpa [openedQuad] using this
  have hd : (pre ++ [prev, anchor] ++ openedQuad g e.st.rect bb.rect e.st.nextId
      ++ [sep, bb])[pre.length + 1 + 4]? = some (kbChild g e.st.rect bb.rect e.st.nextId) := by
    rw [hassoc]
    have := getq_append pre ([prev, anchor] ++ (openedQuad g e.st.rect bb.rect e.st.nextId ++ [sep, bb])) 5
    simpa [openedQuad] using this
  simp only [toggleSearchBarHome, hnone, hopen, Option.bind_eq_bind, Option.some_bind, hsh,
    Nat.add_sub_cancel, e2, ha, hb, hc, hd, sepSChild, kbChild, kbTop]
  simp [RenderData.req, RenderData.expose]

theorem toggleKeyboardHome_dismiss_eq (g : Geom) (update : Bool) (vid : Option ViewId)
    (e : HomeEnv) (P : List Child) (w x y z sep bb : Child)
    (hch : e.st.children = P ++ [w, x, y, z, sep, bb])
    (hsh : e.st.shelfIndex + 1 = P.length)
    (hx : x.kind = ChildKind.searchBar)
    (hz : z.kind = ChildKind.keyboard)
    (hsepk : sep.kind ≠ ChildKind.keyboard)
    (hbbk : bb.kind ≠ ChildKind.keyboard) :
    toggleKeyboardHome g false update vid e =
      some ⟨{ e.st with
              children := P ++ [{ w with rect := w.rect.translate ⟨0, (z.rect.absorb y.rect).height⟩ },
                                { x with rect := x.rect.translate ⟨0, (z.rect.absorb y.rect).height⟩ },
                                sep, bb] },
            e.hub ++ [Event.focus none],
            (if update then
               e.rq ++
                 [RenderData.expose
                    ⟨⟨e.st.rect.rmin.x, w.rect.rmin.y⟩,
                     ⟨e.st.rect.rmax.x, w.rect.rmin.y + (z.rect.absorb y.rect).height⟩⟩ .gui,
                  RenderData.req w.id (w.rect.translate ⟨0, (z.rect.absorb y.rect).height⟩) .gui,
                  RenderData.req x.id (x.rect.translate ⟨0, (z.rect.absorb y.rect).height⟩) .gui]
             else e.rq),
            Rectangle.zero⟩ := by
  have hP2 : e.st.shelfIndex + 2 = P.length + 1 := by omega
  have hb1 : e.st.children[e.st.shelfIndex + 2]? = some x := by
    rw [hch, hP2]
    have := getq_append P [w, x, y, z, sep, bb] 1
    simpa using this
  have hkb : rlocate .keyboard e.st.children = some (P.length + 3) := by
    rw [hch]
    apply rlocate_append_of_some
    simp [rlocate, hz, hsepk, hbbk]
  have hc1 : e.st.children[e.st.shelfIndex + 1]? = some w := by
    rw [hch, hsh]
    have := getq_append P [w, x, y, z, sep, bb] 0
    simpa using this
  have hck : e.st.children[P.length + 3]? = some z := by
    rw [hch]
    have := getq_append P [w, x, y, z, sep, bb] 3
    simpa using this
  have e0 : ensure (P.length + 3 ≠ 0) = some () := ensure_pos (by omega)
  have e1 : P.length + 3 - 1 = P.length + 2 := by omega
  have hck1 : e.st.children[P.length + 2]? = some y := by
    rw [hch]
    have := getq_append P [w, x, y, z, sep, bb] 2
    simpa using this
  have hdr : vdrain (P.length + 2) (P.length + 3) e.st.children = some (P ++ [w, x, sep, bb]) := by
    rw [hch, vdrain_append]
    simp [vdrain, List.take, List.drop]
  have hm1 : vmodify (e.st.shelfIndex + 1)
      (fun c => { c with rect := c.rect.translate ⟨0, (z.rect.absorb y.rect).height⟩ })
      (P ++ [w, x, sep, bb]) =
      some (P ++ [{ w with rect := w.rect.translate ⟨0, (z.rect.absorb y.rect).height⟩ }, x, sep, bb]) := by
    rw [hsh]
    have := vmodify_append P [w, x, sep, bb] 0
      (fun c => { c with rect := c.rect.translate ⟨0, (z.rect.absorb y.rect).height⟩ })
    simpa [vmodify] using this
  have hm2 : vmodify (e.st.shelfIndex + 2)
      (fun c => { c with rect := c.rect.translate ⟨0, (z.rect.absorb y.rect).height⟩ })
      (P ++ [{ w with rect := w.rect.translate ⟨0, (z.rect.absorb y.rect).height⟩ }, x, sep, bb]) =
      some (P ++ [{ w with rect := w.rect.translate ⟨0, (z.rect.absorb y.rect).height⟩ },
                  { x with rect := x.rect.translate ⟨0, (z.rect.absorb y.rect).height⟩ }, sep, bb]) := by
    rw [hP2]
    have := vmodify_append P
      [{ w with rect := w.rect.translate ⟨0, (z.rect.absorb y.rect).height⟩ }, x, sep, bb] 1
      (fun c => { c with rect := c.rect.translate ⟨0, (z.rect.absorb y.rect).height⟩ })
    simpa [vmodify] using this
  have hga : (P ++ [{ w with rect := w.rect.translate ⟨0, (z.rect.absorb y.rect).height⟩ },
      { x with rect := x.rect.translate ⟨0, (z.rect.absorb y.rect).height⟩ }, sep, bb])[e.st.shelfIndex + 1]? =
      some { w with rect := w.rect.translate ⟨0, (z.rect.absorb y.rect).height⟩ } := by
    rw [hsh]
    have := getq_append P [{ w with rect := w.rect.translate ⟨0, (z.rect.absorb y.rect).height⟩ },
      { x with rect := x.rect.translate ⟨0, (z.rect.absorb y.rect).height⟩ }, sep, bb] 0
    simpa using this
  have hgb : (P ++ [{ w with rect := w.rect.translate ⟨0, (z.rect.absorb y.rect).height⟩ },
      { x with rect := x.rect.translate ⟨0, (z.rect.absorb y.rect).height⟩ }, sep, bb])[e.st.shelfIndex + 2]? =
      some { x with rect := x.rect.translate ⟨0, (z.rect.absorb y.rect).height⟩ } := by
    rw [hP2]
    have := getq_append P [{ w with rect := w.rect.translate ⟨0, (z.rect.absorb y.rect).height⟩ },
      { x with rect := x.rect.translate ⟨0, (z.rect.absorb y.rect).height⟩ }, sep, bb] 1
    simpa using this
  rw [hx] at hga hgb
  simp only [toggleKeyboardHome, hb1, Option.bind_eq_bind, Option.some_bind, hx, hkb, hc1, e0, e1,
    hck, hck1, hdr, hm1, hm2, hga, hgb]
  cases update <;> simp [RenderData.req, RenderData.expose, hga, hgb]

theorem toggleKeyboardHome_present_noop (g : Geom) (update : Bool) (vid : Option ViewId)
    (e : HomeEnv) (c : Child) (i : Nat)
    (hc : e.st.children[e.st.shelfIndex + 2]? = some c)
    (hkb : rlocate .keyboard e.st.children = some i) :
    toggleKeyboardHome g true update vid e = some e := by
  simp only [toggleKeyboardHome, hc, Option.bind_eq_bind, Option.some_bind, hkb]
  simp

theorem toggleKeyboardHome_open_closed_eq (g : Geom) (vid : Option ViewId)
    (e : HomeEnv) (pre : List Child) (prev anchor sep bb : Child)
    (hch : e.st.children = pre ++ [prev, anchor, sep, bb])
    (hsh : e.st.shelfIndex = pre.length + 1)
    (hkf : kindFree ChildKind.keyboard e.st.children)
    (hsepk : sep.kind ≠ ChildKind.keyboard)
    (hbb : bb.kind = ChildKind.bottomBar) :
    toggleKeyboardHome g true true vid e =
      some ⟨{ e.st with
              children := pre ++ [prev, anchor] ++ openedQuad g e.st.rect bb.rect e.st.nextId
                            ++ [sep, bb],
              nextId := e.st.nextId + 4 },
            e.hub,
            e.rq ++ [RenderData.req (e.st.nextId + 3)
                       (sepSChild g e.st.rect bb.rect e.st.nextId).rect .gui,
                     RenderData.req (e.st.nextId + 2)
                       (sbChild g e.st.rect bb.rect e.st.nextId).rect .gui],
            e.kbRect⟩ := by
  have hP2 : e.st.shelfIndex + 2 = pre.length + 3 := by omega
  have hb1 : e.st.children[e.st.shelfIndex + 2]? = some bb := by
    rw [hch, hP2]
    have := getq_append pre [prev, anchor, sep, bb] 3
    simpa using this
  have hkb : rlocate .keyboard e.st.children = none := rlocate_eq_none_iff.mpr hkf
  have hF : e.st.children = (pre ++ [prev, anchor]) ++ [sep, bb] := by simp [hch]
  have hFsh : e.st.shelfIndex + 1 = (pre ++ [prev, anchor]).length := by simp [hsh]
  have hopen := openSearchBar_closed g e.st (pre ++ [prev, anchor]) sep bb hF hFsh hsepk hbb
  have hassoc : pre ++ [prev, anchor] ++ openedQuad g e.st.rect bb.rect e.st.nextId ++ [sep, bb]
      = pre ++ ([prev, anchor] ++ (openedQuad g e.st.rect bb.rect e.st.nextId ++ [sep, bb])) := by
    simp
  have hga : (pre ++ [prev, anchor] ++ openedQuad g e.st.rect bb.rect e.st.nextId
      ++ [sep, bb])[e.st.shelfIndex + 1]? = some (sepSChild g e.st.rect bb.rect e.st.nextId) := by
    rw [hassoc, hsh]
    have := getq_append pre
      ([prev, anchor] ++ (openedQuad g e.st.rect bb.rect e.st.nextId ++ [sep, bb])) 2
    simpa [openedQuad] using this
  have hgb : (pre ++ [prev, anchor] ++ openedQuad g e.st.rect bb.rect e.st.nextId
      ++ [sep, bb])[e.st.shelfIndex + 2]? = some (sbChild g e.st.rect bb.rect e.st.nextId) := by
    rw [hassoc, hP2]
    have := getq_append pre
      ([prev, anchor] ++ (openedQuad g e.st.rect bb.rect e.st.nextId ++ [sep, bb])) 3
    simpa [openedQuad] using this
  have hbbk : ¬ (bb.kind = ChildKind.searchBar) := by
    rw [hbb]
    intro hcon
    cases hcon
  simp only [toggleKeyboardHome, hb1, Option.bind_eq_bind, Option.some_bind, hkb, hopen, hga, hgb]
  simp [hbbk, sbChild, sepSChild, RenderData.req]

theorem toggleSearchBarHome_close_eq (g : Geom) (e : HomeEnv) (R : List Child)
    (prev anchor w x y z sep bb : Child)
    (hch : e.st.children = R ++ [prev, anchor, w, x, y, z, sep, bb])
    (hsh : e.st.shelfIndex = R.length + 1)
    (hfoc : e.st.focus = some ViewId.siteTextSearchInput)
    (hx : x.kind = ChildKind.searchBar)
    (hz : z.kind = ChildKind.keyboard)
    (hys : y.kind ≠ ChildKind.searchBar)
    (_hyk : y.kind ≠ ChildKind.keyboard)
    (hseps : sep.kind ≠ ChildKind.searchBar)
    (hsepk : sep.kind ≠ ChildKind.keyboard)
    (hbbs : bb.kind ≠ ChildKind.searchBar)
    (hbbk : bb.kind ≠ ChildKind.keyboard) :
    toggleSearchBarHome g (some false) true e =
      some ⟨{ e.st with
              children := R ++ [prev,
                { anchor with rect := ⟨anchor.rect.rmin,
                    ⟨anchor.rect.rmax.x, anchor.rect.rmax.y + g.smallHeight⟩⟩ },
                sep, bb],
              query := none },
            e.hub ++ [Event.focus none],
            e.rq ++ [RenderData.req e.st.id e.st.rect .gui,
                     RenderData.req prev.id prev.rect .partialMode,
                     RenderData.req sep.id sep.rect .partialMode],
            Rectangle.zero⟩ := by
  have hzs : z.kind ≠ ChildKind.searchBar := by
    rw [hz]
    intro hcon
    cases hcon
  have hsb : rlocate .searchBar e.st.children = some (R.length + 3) := by
    rw [hch]
    have := @rlocate_append_of_some ChildKind.searchBar
      [prev, anchor, w, x, y, z, sep, bb] 3 R
      (by simp [rlocate, hx, hys, hzs, hseps, hbbs])
    simpa using this
  have hchP : e.st.children = (R ++ [prev, anchor]) ++ [w, x, y, z, sep, bb] := by simp [hch]
  have hshP : e.st.shelfIndex + 1 = (R ++ [prev, anchor]).length := by simp [hsh]
  have hdis := toggleKeyboardHome_dismiss_eq g false (some ViewId.siteTextSearchInput) e
    (R ++ [prev, anchor]) w x y z sep bb hchP hshP hx hz hsepk hbbk
  have e0 : ensure (R.length + 3 ≠ 0) = some () := ensure_pos (by omega)
  have e1 : R.length + 3 - 1 = (R ++ [prev, anchor]).length + 0 := by simp
  have e3 : R.length + 3 = (R ++ [prev, anchor]).length + 1 := by simp
  have hdr : vdrain (R.length + 3 - 1) (R.length + 3)
      ((R ++ [prev, anchor]) ++
        [{ w with rect := w.rect.translate ⟨0, (z.rect.absorb y.rect).height⟩ },
         { x with rect := x.rect.translate ⟨0, (z.rect.absorb y.rect).height⟩ }, sep, bb]) =
      some ((R ++ [prev, anchor]) ++ [sep, bb]) := by
    rw [e1, e3, vdrain_append]
    simp [vdrain, List.take, List.drop]
  have hmod : vmodify (R.length + 1)
      (fun c => { c with rect := ⟨c.rect.rmin, ⟨c.rect.rmax.x, c.rect.rmax.y + g.smallHeight⟩⟩ })
      (R ++ [prev, anchor, sep, bb]) =
      some (R ++ [prev,
        { anchor with rect := ⟨anchor.rect.rmin,
            ⟨anchor.rect.rmax.x, anchor.rect.rmax.y + g.smallHeight⟩⟩ }, sep, bb]) := by
    have := vmodify_append R [prev, anchor, sep, bb] 1
      (fun c => { c with rect := ⟨c.rect.rmin, ⟨c.rect.rmax.x, c.rect.rmax.y + g.smallHeight⟩⟩ })
    simpa [vmodify] using this
  have e4 : ensure (R.length + 1 ≠ 0) = some () := ensure_pos (by omega)
  have hga : (R ++ [prev,
      { anchor with rect := ⟨anchor.rect.rmin,
          ⟨anchor.rect.rmax.x, anchor.rect.rmax.y + g.smallHeight⟩⟩ }, sep, bb])[R.length]? =
      some prev := by
    have h0 : R.length = R.length + 0 := by omega
    rw [h0]
    have := getq_append R [prev,
      { anchor with rect := ⟨anchor.rect.rmin,
          ⟨anchor.rect.rmax.x, anchor.rect.rmax.y + g.smallHeight⟩⟩ }, sep, bb] 0
    simpa using this
  have hgb : (R ++ [prev,
      { anchor with rect := ⟨anchor.rect.rmin,
          ⟨anchor.rect.rmax.x, anchor.rect.rmax.y + g.smallHeight⟩⟩ }, sep, bb])[R.length + 1 + 1]? =
      some sep := by
    have h0 : R.length + 1 + 1 = R.length + 2 := by omega
    rw [h0]
    have := getq_append R [prev,
      { anchor with rect := ⟨anchor.rect.rmin,
          ⟨anchor.rect.rmax.x, anchor.rect.rmax.y + g.smallHeight⟩⟩ }, sep, bb] 2
    simpa using this
  simp only [toggleSearchBarHome, hsb, Option.bind_eq_bind, Option.some_bind, hfoc, hdis, hdr,
    hsh, hmod, e0, e4, hga, hgb]
  simp [RenderData.req, hmod, hga, hgb]

theorem focusCascade_then_close_eq (g : Geom) (st1 : HomeState) (hub1 : List Event)
    (rq1 : List RenderData) (kb1 : Rectangle) (R : List Child)
    (prev anchor w x y z sep bb : Child)
    (hch : st1.children = R ++ [prev, anchor, w, x, y, z, sep, bb])
    (hsh : st1.shelfIndex = R.length + 1)
    (hfoc : st1.focus ≠ some ViewId.siteTextSearchInput)
    (hx : x.kind = ChildKind.searchBar)
    (hz : z.kind = ChildKind.keyboard)
    (hys : y.kind ≠ ChildKind.searchBar)
    (hyk : y.kind ≠ ChildKind.keyboard)
    (hseps : sep.kind ≠ ChildKind.searchBar)
    (hsepk : sep.kind ≠ ChildKind.keyboard)
    (hbbs : bb.kind ≠ ChildKind.searchBar)
    (hbbk : bb.kind ≠ ChildKind.keyboard) :
    (handleFocusHome g (some ViewId.siteTextSearchInput) ⟨st1, hub1, rq1, kb1⟩).bind
      (fun e2 => toggleSearchBarHome g (some false) true e2) =
      some ⟨{ st1 with
              children := R ++ [prev,
                { anchor with rect := ⟨anchor.rect.rmin,
                    ⟨anchor.rect.rmax.x, anchor.rect.rmax.y + g.smallHeight⟩⟩ }, sep, bb],
              focus := some ViewId.siteTextSearchInput,
              query := none },
            hub1 ++ [Event.focus none],
            rq1 ++ [RenderData.req st1.id st1.rect .gui,
                    RenderData.req prev.id prev.rect .partialMode,
                    RenderData.req sep.id sep.rect .partialMode],
            Rectangle.zero⟩ := by
  have hkbloc : rlocate .keyboard st1.children = some (R.length + 5) := by
    rw [hch]
    apply rlocate_append_of_some
    simp [rlocate, hsepk, hbbk, hz]
  have hx2 : st1.children[st1.shelfIndex + 2]? = some x := by
    rw [hch, hsh]
    have h0 : R.length + 1 + 2 = R.length + 3 := by omega
    rw [h0]
    have := getq_append R [prev, anchor, w, x, y, z, sep, bb] 3
    simpa using this
  have hstep : handleFocusHome g (some ViewId.siteTextSearchInput) ⟨st1, hub1, rq1, kb1⟩ =
      some ⟨{ st1 with focus := some ViewId.siteTextSearchInput }, hub1, rq1, kb1⟩ := by
    simp only [handleFocusHome, if_neg hfoc]
    exact toggleKeyboardHome_present_noop g true (some ViewId.siteTextSearchInput) _ x
      (R.length + 5) hx2 hkbloc
  rw [hstep]
  simp only [Option.some_bind]
  exact toggleSearchBarHome_close_eq g
    ⟨{ st1 with focus := some ViewId.siteTextSearchInput }, hub1, rq1, kb1⟩
    R prev anchor w x y z sep bb hch hsh rfl hx hz hys hyk hseps hsepk hbbs hbbk

theorem openCloseSeq_closed_eq (g : Geom) (e : HomeEnv) (R : List Child)
    (prev anchor sep bb : Child)
    (hch : e.st.children = R ++ [prev, anchor, sep, bb])
    (hsh : e.st.shelfIndex = R.length + 1)
    (hfoc : e.st.focus ≠ some ViewId.siteTextSearchInput)
    (_hq : e.st.query = none)
    (hsb : kindFree ChildKind.searchBar e.st.children)
    (hkf : kindFree ChildKind.keyboard e.st.children)
    (hbb : bb.kind = ChildKind.bottomBar) :
    (openCloseSeq g e).map (fun e2 => e2.st.children) =
      some (R ++ [prev,
        { anchor with rect := ⟨anchor.rect.rmin,
            ⟨anchor.rect.rmax.x, anchor.rect.rmax.y + g.smallHeight⟩⟩ }, sep, bb]) := by
  have hsep_mem : sep ∈ e.st.children := by rw [hch]; simp
  have hbb_mem : bb ∈ e.st.children := by rw [hch]; simp
  have hseps := hsb sep hsep_mem
  have hsepk := hkf sep hsep_mem
  have hbbs := hsb bb hbb_mem
  have hbbk := hkf bb hbb_mem
  have h1 := toggleSearchBarHome_open_eq g e R prev anchor sep bb hch hsh hsb hsepk hbb
  unfold openCloseSeq
  rw [h1]
  simp only [Option.some_bind]
  have h2 := focusCascade_then_close_eq g
    { e.st with
      children := R ++ [prev, anchor] ++ openedQuad g e.st.rect bb.rect e.st.nextId ++ [sep, bb],
      nextId := e.st.nextId + 4 }
    (if e.st.query = none then e.hub ++ [Event.focus (some ViewId.siteTextSearchInput)] else e.hub)
    (e.rq ++
      [RenderData.req prev.id prev.rect .partialMode,
       RenderData.req anchor.id
         ⟨anchor.rect.rmin,
          ⟨anchor.rect.rmax.x, kbTop g e.st.rect bb.rect - g.smallHeight - g.thickness⟩⟩
         .partialMode,
       RenderData.expose
         ⟨⟨anchor.rect.rmin.x, kbTop g e.st.rect bb.rect - g.smallHeight - g.thickness⟩,
          ⟨anchor.rect.rmax.x, (g.kbAdjust (kbRequestRect g e.st.rect bb.rect)).rmax.y⟩⟩
         .partialMode])
    e.kbRect R prev anchor
    (sepSChild g e.st.rect bb.rect e.st.nextId) (sbChild g e.st.rect bb.rect e.st.nextId)
    (sepKChild g e.st.rect bb.rect e.st.nextId) (kbChild g e.st.rect bb.rect e.st.nextId)
    sep bb (by simp [openedQuad]) hsh hfoc rfl rfl (by simp [sepKChild])
    (by simp [sepKChild]) hseps hsepk hbbs hbbk
  refine (congrArg (Option.map (fun e2 => e2.st.children)) h2).trans ?_
  simp

theorem mem_of_getq {α : Type} : ∀ {l : List α} {i : Nat} {a : α}, l[i]? = some a → a ∈ l
  | [], i, _, h => by simp at h
  | x :: xs, 0, a, h => by
    simp at h
    simp [h]
  | x :: xs, i + 1, a, h => by
    simp at h
    exact List.mem_cons_of_mem x (mem_of_getq h)

theorem locate_spec_some {k : ChildKind} :
    ∀ {cs : List Child} {i : Nat}, locate k cs = some i →
      ∃ c, cs[i]? = some c ∧ c.kind = k ∧
        ∀ j, j < i → ∀ c2, cs[j]? = some c2 → c2.kind ≠ k
  | [], i, h => by simp [locate] at h
  | c :: cs, i, h => by
    by_cases hc : c.kind = k
    · simp only [locate, if_pos hc, Option.some.injEq] at h
      subst h
      exact ⟨c, by simp, hc, by omega⟩
    · simp only [locate, if_neg hc] at h
      cases hl : locate k cs with
      | none => rw [hl] at h; cases h
      | some i0 =>
        rw [hl] at h
        simp only [Option.map_some', Option.some.injEq] at h
        obtain ⟨c0, hg, hk0, hmin⟩ := locate_spec_some hl
        refine ⟨c0, ?_, hk0, ?_⟩
        · rw [← h]
          simpa using hg
        · intro j hj c2 hc2
          match j with
          | 0 =>
            simp at hc2
            rw [← hc2]
            exact hc
          | j0 + 1 =>
            have hj0 : j0 < i0 := by omega
            exact hmin j0 hj0 c2 (by simpa using hc2)

theorem rlocate_spec_some {k : ChildKind} :
    ∀ {cs : List Child} {i : Nat}, rlocate k cs = some i →
      ∃ c, cs[i]? = some c ∧ c.kind = k ∧
        ∀ j, i < j → ∀ c2, cs[j]? = some c2 → c2.kind ≠ k
  | [], i, h => by simp [rlocate] at h
  | c :: cs, i, h => by
    cases hl : rlocate k cs with
    | some i0 =>
      rw [rlocate, hl] at h
      simp only [Option.some.injEq] at h
      obtain ⟨c0, hg, hk0, hmax⟩ := rlocate_spec_some hl
      refine ⟨c0, ?_, hk0, ?_⟩
      · rw [← h]
        simpa using hg
      · intro j hj c2 hc2
        match j with
        | 0 => omega
        | j0 + 1 =>
          have hj0 : i0 < j0 := by omega
          exact hmax j0 hj0 c2 (by simpa using hc2)
    | none =>
      rw [rlocate, hl] at h
      by_cases hc : c.kind = k
      · rw [if_pos hc] at h
        simp only [Option.some.injEq] at h
        subst h
        refine ⟨c, by simp, hc, ?_⟩
        intro j hj c2 hc2
        match j with
        | 0 => omega
        | j0 + 1 =>
          exact (rlocate_eq_none_iff.mp hl) c2 (mem_of_getq (by simpa using hc2))
      · rw [if_neg hc] at h
        cases h

theorem favLoop_nil (g : Geom) (hrect : Rectangle) (bbTop topPos : Int) (cs : List Child)
    (nid : Nat) (last : Option Nat) :
    favLoop g hrect bbTop [] topPos cs nid last = (cs, nid, last) := rfl

theorem favLoop_cons (g : Geom) (hrect : Rectangle) (bbTop : Int) (f : String)
    (fs : List String) (topPos : Int) (cs : List Child) (nid : Nat) (last : Option Nat) :
    favLoop g hrect bbTop (f :: fs) topPos cs nid last =
      (if bbTop < (g.faveRect hrect topPos).rmax.y + (g.faveRect hrect topPos).height
       then (cs ++ [(Child.mk .fave (g.faveRect hrect topPos) nid none)], nid + 1,
             some ((cs ++ [(Child.mk .fave (g.faveRect hrect topPos) nid none)]).length - 1))
       else favLoop g hrect bbTop fs (g.faveRect hrect topPos).rmax.y
              (cs ++ [(Child.mk .fave (g.faveRect hrect topPos) nid none)]) (nid + 1)
              (some ((cs ++ [(Child.mk .fave (g.faveRect hrect topPos) nid none)]).length - 1))) := rfl

theorem favLoop_prefix (g : Geom) (hrect : Rectangle) (bbTop : Int) :
    ∀ (fs : List String) (topPos : Int) (cs : List Child) (nid : Nat) (last : Option Nat),
      ∃ ds, (favLoop g hrect bbTop fs topPos cs nid last).1 = cs ++ ds
  | [], _, cs, _, _ => ⟨[], by simp [favLoop_nil]⟩
  | f :: fs, topPos, cs, nid, last => by
    rw [favLoop_cons]
    by_cases hb : bbTop < (g.faveRect hrect topPos).rmax.y + (g.faveRect hrect topPos).height
    · rw [if_pos hb]
      exact ⟨[(Child.mk .fave (g.faveRect hrect topPos) nid none)], rfl⟩
    · rw [if_neg hb]
      obtain ⟨ds, hds⟩ := favLoop_prefix g hrect bbTop fs (g.faveRect hrect topPos).rmax.y
        (cs ++ [(Child.mk .fave (g.faveRect hrect topPos) nid none)]) (nid + 1)
        (some ((cs ++ [(Child.mk .fave (g.faveRect hrect topPos) nid none)]).length - 1))
      refine ⟨(Child.mk .fave (g.faveRect hrect topPos) nid none) :: ds, ?_⟩
      rw [hds]
      simp

theorem favLoop_last (g : Geom) (hrect : Rectangle) (bbTop : Int) :
    ∀ (fs : List String) (topPos : Int) (cs : List Child) (nid : Nat) (last : Option Nat),
      fs ≠ [] →
      ∃ front2 fv, (favLoop g hrect bbTop fs topPos cs nid last).1 = front2 ++ [fv] ∧
        fv.kind = ChildKind.fave ∧
        (favLoop g hrect bbTop fs topPos cs nid last).2.2 = some front2.length
  | [], _, _, _, _, h => absurd rfl h
  | [f], topPos, cs, nid, last, _ => by
    rw [favLoop_cons]
    by_cases hb : bbTop < (g.faveRect hrect topPos).rmax.y + (g.faveRect hrect topPos).height
    · rw [if_pos hb]
      exact ⟨cs, (Child.mk .fave (g.faveRect hrect topPos) nid none), rfl, rfl, by simp⟩
    · rw [if_neg hb]
      rw [favLoop_nil]
      exact ⟨cs, (Child.mk .fave (g.faveRect hrect topPos) nid none), rfl, rfl, by simp⟩
  | f :: f2 :: fs, topPos, cs, nid, last, _ => by
    rw [favLoop_cons]
    by_cases hb : bbTop < (g.faveRect hrect topPos).rmax.y + (g.faveRect hrect topPos).height
    · rw [if_pos hb]
      exact ⟨cs, (Child.mk .fave (g.faveRect hrect topPos) nid none), rfl, rfl, by simp⟩
    · rw [if_neg hb]
      exact favLoop_last g hrect bbTop (f2 :: fs) (g.faveRect hrect topPos).rmax.y
        (cs ++ [(Child.mk .fave (g.faveRect hrect topPos) nid none)]) (nid + 1)
        (some ((cs ++ [(Child.mk .fave (g.faveRect hrect topPos) nid none)]).length - 1)) (by simp)

theorem homeNew_false_eq (g : Geom) (rect : Rectangle) (faves : List String)
    (rq : List RenderData) :
    homeNew g rect false faves rq =
      some (⟨0, rect,
             (favLoop g rect rect.rmin.y faves (g.topBarRect rect).height
               [Child.mk .filler rect 1 none, Child.mk .topBar (g.topBarRect rect) 2 none]
               3 none).1 ++
               [Child.mk .filler
                  ⟨⟨rect.rmin.x, rect.rmax.y - g.smallHeight - g.smallThickness⟩,
                   ⟨rect.rmax.x, rect.rmax.y - g.smallHeight + g.bigThickness⟩⟩
                  (favLoop g rect rect.rmin.y faves (g.topBarRect rect).height
                    [Child.mk .filler rect 1 none, Child.mk .topBar (g.topBarRect rect) 2 none]
                    3 none).2.1 none,
                Child.mk .bottomBar
                  ⟨⟨rect.rmin.x, rect.rmax.y - g.smallHeight + g.bigThickness⟩,
                   ⟨rect.rmax.x, rect.rmax.y⟩⟩
                  ((favLoop g rect rect.rmin.y faves (g.topBarRect rect).height
                    [Child.mk .filler rect 1 none, Child.mk .topBar (g.topBarRect rect) 2 none]
                    3 none).2.1 + 1) none],
             (favLoop g rect rect.rmin.y faves (g.topBarRect rect).height
               [Child.mk .filler rect 1 none, Child.mk .topBar (g.topBarRect rect) 2 none]
               3 none).1.length - 1, none, none,
             (favLoop g rect rect.rmin.y faves (g.topBarRect rect).height
               [Child.mk .filler rect 1 none, Child.mk .topBar (g.topBarRect rect) 2 none]
               3 none).2.1 + 2⟩,
            rq ++ [RenderData.req 0 rect .full],
            (favLoop g rect rect.rmin.y faves (g.topBarRect rect).height
              [Child.mk .filler rect 1 none, Child.mk .topBar (g.topBarRect rect) 2 none]
              3 none).2.2) := rfl

theorem homeNew_true_eq (g : Geom) (rect : Rectangle) (faves : List String)
    (rq : List RenderData) :
    homeNew g rect true faves rq =
      some (⟨0, rect,
             (favLoop g rect rect.rmin.y faves
               (g.faveRect rect (g.topBarRect rect).height).rmax.y
               [Child.mk .filler rect 1 none, Child.mk .topBar (g.topBarRect rect) 2 none,
                Child.mk .fave (g.faveRect rect (g.topBarRect rect).height) 3 none]
               4 none).1 ++
               [Child.mk .filler
                  ⟨⟨rect.rmin.x, rect.rmax.y - g.smallHeight - g.smallThickness⟩,
                   ⟨rect.rmax.x, rect.rmax.y - g.smallHeight + g.bigThickness⟩⟩
                  (favLoop g rect rect.rmin.y faves
                    (g.faveRect rect (g.topBarRect rect).height).rmax.y
                    [Child.mk .filler rect 1 none, Child.mk .topBar (g.topBarRect rect) 2 none,
                     Child.mk .fave (g.faveRect rect (g.topBarRect rect).height) 3 none]
                    4 none).2.1 none,
                Child.mk .bottomBar
                  ⟨⟨rect.rmin.x, rect.rmax.y - g.smallHeight + g.bigThickness⟩,
                   ⟨rect.rmax.x, rect.rmax.y⟩⟩
                  ((favLoop g rect rect.rmin.y faves
                    (g.faveRect rect (g.topBarRect rect).height).rmax.y
                    [Child.mk .filler rect 1 none, Child.mk .topBar (g.topBarRect rect) 2 none,
                     Child.mk .fave (g.faveRect rect (g.topBarRect rect).height) 3 none]
                    4 none).2.1 + 1) none],
             (favLoop g rect rect.rmin.y faves
               (g.faveRect rect (g.topBarRect rect).height).rmax.y
               [Child.mk .filler rect 1 none, Child.mk .topBar (g.topBarRect rect) 2 none,
                Child.mk .fave (g.faveRect rect (g.topBarRect rect).height) 3 none]
               4 none).1.length - 1, none, none,
             (favLoop g rect rect.rmin.y faves
               (g.faveRect rect (g.topBarRect rect).height).rmax.y
               [Child.mk .filler rect 1 none, Child.mk .topBar (g.topBarRect rect) 2 none,
                Child.mk .fave (g.faveRect rect (g.topBarRect rect).height) 3 none]
               4 none).2.1 + 2⟩,
            rq ++ [RenderData.req 0 rect .full],
            (favLoop g rect rect.rmin.y faves
              (g.faveRect rect (g.topBarRect rect).height).rmax.y
              [Child.mk .filler rect 1 none, Child.mk .topBar (g.topBarRect rect) 2 none,
               Child.mk .fave (g.faveRect rect (g.topBarRect rect).height) 3 none]
              4 none).2.2) := rfl

theorem rlocate_append_last {k : ChildKind} {l2 : List Child} (l1 : List Child)
    (h : rlocate k l2 = some 0) : rlocate k (l1 ++ l2) = some l1.length := by
  have := rlocate_append_of_some l1 h
  simpa using this

theorem home_new_lookup (g : Geom) (rect : Rectangle) (loggedIn : Bool) (faves : List String)
    (rq : List RenderData) :
    ∃ st rq2 lastIdx, homeNew g rect loggedIn faves rq = some (st, rq2, lastIdx) ∧
      locate .filler st.children = some 0 ∧
      (faves ≠ [] → rlocate .fave st.children = lastIdx ∧ lastIdx = some st.shelfIndex) := by
  cases loggedIn with
  | false =>
    refine ⟨_, _, _, homeNew_false_eq g rect faves rq, ?_, ?_⟩
    · dsimp only
      obtain ⟨ds, hds⟩ := favLoop_prefix g rect rect.rmin.y faves (g.topBarRect rect).height
        [Child.mk .filler rect 1 none, Child.mk .topBar (g.topBarRect rect) 2 none] 3 none
      rw [hds]
      simp [locate]
    · intro hne
      obtain ⟨front2, fv, h1, h2, h3⟩ := favLoop_last g rect rect.rmin.y faves
        (g.topBarRect rect).height
        [Child.mk .filler rect 1 none, Child.mk .topBar (g.topBarRect rect) 2 none] 3 none hne
      dsimp only
      rw [h1, h3]
      constructor
      · rw [List.append_assoc]
        apply rlocate_append_last front2
        simp [rlocate, h2]
      · simp
  | true =>
    refine ⟨_, _, _, homeNew_true_eq g rect faves rq, ?_, ?_⟩
    · dsimp only
      obtain ⟨ds, hds⟩ := favLoop_prefix g rect rect.rmin.y faves
        (g.faveRect rect (g.topBarRect rect).height).rmax.y
        [Child.mk .filler rect 1 none, Child.mk .topBar (g.topBarRect rect) 2 none,
         Child.mk .fave (g.faveRect rect (g.topBarRect rect).height) 3 none] 4 none
      rw [hds]
      simp [locate]
    · intro hne
      obtain ⟨front2, fv, h1, h2, h3⟩ := favLoop_last g rect rect.rmin.y faves
        (g.faveRect rect (g.topBarRect rect).height).rmax.y
        [Child.mk .filler rect 1 none, Child.mk .topBar (g.topBarRect rect) 2 none,
         Child.mk .fave (g.faveRect rect (g.topBarRect rect).height) 3 none] 4 none hne
      dsimp only
      rw [h1, h3]
      constructor
      · rw [List.append_assoc]
        apply rlocate_append_last front2
        simp [rlocate, h2]
      · simp

theorem Rectangle.translate_neg_cancel (r : Rectangle) (d : Point) :
    (r.translate d).translate (-d) = r := by
  cases r with
  | mk a b =>
    cases a with
    | mk ax ay =>
      cases b with
      | mk bx bz =>
        simp [Rectangle.translate, Point.add_def, Point.neg_def]

mutual

theorem shiftT_rects (d : Point) :
    ∀ t : ViewTree, rectsT (shiftT d t) = (rectsT t).map (fun r => r.translate d)
  | .node r cs => by
    simp only [shiftT, rectsT, List.map_cons, shiftF_rects d cs]

theorem shiftF_rects (d : Point) :
    ∀ cs : ViewForest, rectsF (shiftF d cs) = (rectsF cs).map (fun r => r.translate d)
  | .nil => by simp [shiftF, rectsF]
  | .cons t ts => by
    simp only [shiftF, rectsF, List.map_append, shiftT_rects d t, shiftF_rects d ts]

end

mutual

theorem shiftT_cancel (d : Point) : ∀ t : ViewTree, shiftT (-d) (shiftT d t) = t
  | .node r cs => by
    simp only [shiftT, Rectangle.translate_neg_cancel, shiftF_cancel d cs]

theorem shiftF_cancel (d : Point) : ∀ cs : ViewForest, shiftF (-d) (shiftF d cs) = cs
  | .nil => by simp [shiftF]
  | .cons t ts => by
    simp only [shiftF, shiftT_cancel d t, shiftF_cancel d ts]

end

theorem countKind_eq_zero {k : ChildKind} {l : List Child} (h : kindFree k l) :
    countKind k l = 0 := by
  unfold countKind
  rw [List.countP_eq_zero]
  intro c hc
  simpa using h c hc

theorem toggleKeyboard_short_vector_panics (g : Geom) (enable update : Bool)
    (vid : Option ViewId) (s : WorksState) (hub : List Event) (rq : List RenderData)
    (e : HomeEnv)
    (hw : s.children.length ≤ s.shelfIndex + 1)
    (hh : e.st.children.length ≤ e.st.shelfIndex + 2) :
    worksToggleKeyboard g enable update vid s hub rq = none ∧
    toggleKeyboardHome g enable update vid e = none := by
  constructor
  · have h1 : s.children[s.shelfIndex + 1]? = none := List.getElem?_eq_none hw
    simp [worksToggleKeyboard, h1]
  · have h2 : e.st.children[e.st.shelfIndex + 2]? = none := List.getElem?_eq_none hh
    simp [toggleKeyboardHome, h2]

theorem works_goToPage_invalid (g : Geom) (s : WorksState) (rq : List RenderData)
    (i : Nat) (hi : s.pagesCount ≤ i) : goToPage g i s rq = some (s, rq) := by
  simp [goToPage, hi]

theorem works_goToPage_bound (g : Geom) (s : WorksState) (rq : List RenderData)
    (hcur : s.currentPage < s.pagesCount) :
    ∀ i s2 rq2, goToPage g i s rq = some (s2, rq2) →
      s2.currentPage < s2.pagesCount ∧ s2.pagesCount = s.pagesCount := by
  intro i s2 rq2 h
  by_cases hi : s.pagesCount ≤ i
  · simp [goToPage, hi] at h
    obtain ⟨h1, h2⟩ := h
    rw [← h1]
    exact ⟨hcur, rfl⟩
  · simp only [goToPage, if_neg hi, Option.bind_eq_bind] at h
    cases hu : updateShelf g { s with currentPage := i } rq with
    | none =>
      rw [hu] at h
      cases h
    | some rq1 =>
      rw [hu] at h
      simp at h
      obtain ⟨h1, h2⟩ := h
      rw [← h1]
      exact ⟨by simpa using Nat.lt_of_not_le hi, rfl⟩

theorem works_goToNeighbor_bound (g : Geom) (s : WorksState) (rq : List RenderData)
    (hpc : 0 < s.pagesCount) (hcur : s.currentPage < s.pagesCount) :
    ∀ dir s2 rq2, goToNeighbor g dir s rq = some (s2, rq2) →
      s2.currentPage < s2.pagesCount ∧ s2.pagesCount = s.pagesCount := by
  intro dir s2 rq2 h
  cases dir with
  | next =>
    by_cases hn : s.currentPage < s.pagesCount - 1
    · simp only [goToNeighbor, if_pos hn, Option.bind_eq_bind] at h
      cases hu : updateShelf g { s with currentPage := s.currentPage + 1 } rq with
      | none => rw [hu] at h; cases h
      | some rq1 =>
        rw [hu] at h
        simp at h
        obtain ⟨h1, h2⟩ := h
        rw [← h1]
        exact ⟨by simp; omega, rfl⟩
    · simp only [goToNeighbor, if_neg hn] at h
      simp at h
      obtain ⟨h1, h2⟩ := h
      rw [← h1]
      exact ⟨hcur, rfl⟩
  | previous =>
    by_cases hn : 0 < s.currentPage
    · simp only [goToNeighbor, if_pos hn, Option.bind_eq_bind] at h
      cases hu : updateShelf g { s with currentPage := s.currentPage - 1 } rq with
      | none => rw [hu] at h; cases h
      | some rq1 =>
        rw [hu] at h
        simp at h
        obtain ⟨h1, h2⟩ := h
        rw [← h1]
        exact ⟨by simp; omega, rfl⟩
    · simp only [goToNeighbor, if_neg hn] at h
      simp at h
      obtain ⟨h1, h2⟩ := h
      rw [← h1]
      exact ⟨hcur, rfl⟩

theorem toggleSearchBarHome_forceOpen_noop (g : Geom) (u : Bool) (e : HomeEnv) (i : Nat)
    (h : rlocate .searchBar e.st.children = some i) :
    toggleSearchBarHome g (some true) u e = some e := by
  simp [toggleSearchBarHome, h]

theorem toggleSearchBarHome_forceClose_noop (g : Geom) (u : Bool) (e : HomeEnv)
    (h : rlocate .searchBar e.st.children = none) :
    toggleSearchBarHome g (some false) u e = some e := by
  simp [toggleSearchBarHome, h]

theorem toggleMainMenu_forceOpen_noop (g : Geom) (rect : Rectangle) (children : List Child)
    (rq : List RenderData) (nid : Nat) (i : Nat)
    (h : locateById .mainMenu children = some i) :
    toggleMainMenu g rect (some true) children rq nid = some (children, rq, nid) := by
  simp [toggleMainMenu, h]

theorem toggleMainMenu_forceClose_noop (g : Geom) (rect : Rectangle) (children : List Child)
    (rq : List RenderData) (nid : Nat)
    (h : locateById .mainMenu children = none) :
    toggleMainMenu g rect (some false) children rq nid = some (children, rq, nid) := by
  simp [toggleMainMenu, h]

theorem toggleGoToPage_forceOpen_noop (g : Geom) (ws : WorksState) (hub : List Event)
    (wrq : List RenderData) (i : Nat)
    (h : locateById .goToPage ws.children = some i) :
    toggleGoToPage g (some true) ws hub wrq = some (ws, hub, wrq) := by
  simp [toggleGoToPage, h]

theorem toggleGoToPage_forceClose_noop (g : Geom) (ws : WorksState) (hub : List Event)
    (wrq : List RenderData)
    (h : locateById .goToPage ws.children = none) :
    toggleGoToPage g (some false) ws hub wrq = some (ws, hub, wrq) := by
  simp [toggleGoToPage, h]

theorem home_focus_cascade_helper (g : Geom) (e : HomeEnv) (pre : List Child)
    (prev anchor sep bb : Child)
    (hch : e.st.children = pre ++ [prev, anchor, sep, bb])
    (hsh : e.st.shelfIndex = pre.length + 1)
    (hfoc : e.st.focus ≠ some ViewId.siteTextSearchInput)
    (_hsb : kindFree ChildKind.searchBar e.st.children)
    (hkf : kindFree ChildKind.keyboard e.st.children)
    (hbb : bb.kind = ChildKind.bottomBar) :
    ∃ e2, handleFocusHome g (some ViewId.siteTextSearchInput) e = some e2 ∧
      countKind .keyboard e2.st.children = countKind .keyboard e.st.children + 1 ∧
      countKind .searchBar e2.st.children = countKind .searchBar e.st.children + 1 ∧
      handleFocusHome g (some ViewId.siteTextSearchInput) e2 = some e2 := by
  have hsepk : sep.kind ≠ ChildKind.keyboard := hkf sep (by rw [hch]; simp)
  have hopen := toggleKeyboardHome_open_closed_eq g (some ViewId.siteTextSearchInput)
    ⟨{ e.st with focus := some ViewId.siteTextSearchInput }, e.hub, e.rq, e.kbRect⟩
    pre prev anchor sep bb hch hsh hkf hsepk hbb
  refine ⟨⟨{ e.st with
             focus := some ViewId.siteTextSearchInput,
             children := pre ++ [prev, anchor] ++ openedQuad g e.st.rect bb.rect e.st.nextId
                           ++ [sep, bb],
             nextId := e.st.nextId + 4 },
           e.hub,
           e.rq ++ [RenderData.req (e.st.nextId + 3)
                      (sepSChild g e.st.rect bb.rect e.st.nextId).rect .gui,
                    RenderData.req (e.st.nextId + 2)
                      (sbChild g e.st.rect bb.rect e.st.nextId).rect .gui],
           e.kbRect⟩, ?_, ?_, ?_, ?_⟩
  · simp only [handleFocusHome, if_neg hfoc]
    exact hopen
  · rw [hch]
    simp [countKind, List.countP_append, openedQuad, kbChild, sepKChild, sbChild, sepSChild,
      List.countP_cons]
    omega
  · rw [hch]
    simp [countKind, List.countP_append, openedQuad, kbChild, sepKChild, sbChild, sepSChild,
      List.countP_cons]
    omega
  · simp [handleFocusHome]

/-- C1 (corrected): on a home container with the search overlay closed,
force-opening the search bar, draining the focus cascade and force-closing
it restores the child vector's length and every child (type, id, rectangle)
at its original index EXCEPT the anchor: the anchor comes back with its
bottom edge grown by the search-bar height, because the open transition
never shrinks it while the close transition grows it. -/
theorem home_search_open_close_round_trip (g : Geom) (e : HomeEnv) (R : List Child)
    (prev anchor sep bb : Child)
    (hch : e.st.children = R ++ [prev, anchor, sep, bb])
    (hsh : e.st.shelfIndex = R.length + 1)
    (hfoc : e.st.focus ≠ some ViewId.siteTextSearchInput)
    (hq : e.st.query = none)
    (hsb : kindFree ChildKind.searchBar e.st.children)
    (hkf : kindFree ChildKind.keyboard e.st.children)
    (hbb : bb.kind = ChildKind.bottomBar) :
    (openCloseSeq g e).map (fun e2 => e2.st.children) =
      some (R ++ [prev,
        { anchor with rect := ⟨anchor.rect.rmin,
            ⟨anchor.rect.rmax.x, anchor.rect.rmax.y + g.smallHeight⟩⟩ }, sep, bb]) :=
  openCloseSeq_closed_eq g e R prev anchor sep bb hch hsh hfoc hq hsb hkf hbb

/-- Witness for C1 at the concrete closed home screen: the round trip brings
back the same five children, the anchor 68 pixels taller. -/
theorem home_search_open_close_round_trip_witness :
    (openCloseSeq gC env0).map (fun e2 => e2.st.children) =
      some [⟨.filler, rectC, 1, none⟩,
            ⟨.topBar, ⟨⟨0, 0⟩, ⟨600, 68⟩⟩, 2, none⟩,
            ⟨.fave, ⟨⟨0, 68⟩, ⟨600, 198⟩⟩, 3, none⟩,
            ⟨.filler, ⟨⟨0, 730⟩, ⟨600, 734⟩⟩, 4, none⟩,
            ⟨.bottomBar, ⟨⟨0, 734⟩, ⟨600, 800⟩⟩, 5, none⟩] := by
  have h := home_search_open_close_round_trip gC env0
    [⟨.filler, rectC, 1, none⟩]
    ⟨.topBar, ⟨⟨0, 0⟩, ⟨600, 68⟩⟩, 2, none⟩
    ⟨.fave, ⟨⟨0, 68⟩, ⟨600, 130⟩⟩, 3, none⟩
    ⟨.filler, ⟨⟨0, 730⟩, ⟨600, 734⟩⟩, 4, none⟩
    ⟨.bottomBar, ⟨⟨0, 734⟩, ⟨600, 800⟩⟩, 5, none⟩
    (by decide) (by decide) (by decide) (by decide) (by decide) (by decide) rfl
  simpa [gC, rectC] using h

/-- Counterexample for C1 as stated: after open-then-close on the concrete
closed home screen the anchor's rectangle is 68 pixels taller than before,
so the pre-open child vector is NOT restored exactly. -/
theorem home_search_open_close_counterexample :
    (openCloseSeq gC env0).bind (fun e2 => e2.st.children[2]?.map Child.rect) =
      some ⟨⟨0, 68⟩, ⟨600, 198⟩⟩ ∧
    env0.st.children[2]?.map Child.rect = some ⟨⟨0, 68⟩, ⟨600, 130⟩⟩ ∧
    (⟨⟨0, 68⟩, ⟨600, 198⟩⟩ : Rectangle) ≠ ⟨⟨0, 68⟩, ⟨600, 130⟩⟩ :=
  ⟨rfl, rfl, by decide⟩

/-- C2 (corrected): the open-search transition on a closed home container
inserts FOUR new siblings, not two: a separator and the search input
directly after the anchor, and a keyboard and its separator directly before
the bottom bar; the anchor's rectangle is left unchanged (it is not shrunk);
when no pending query text exists a Focus event targeting the search input
tag is emitted. -/
theorem home_open_search_bar_transition (g : Geom) (e : HomeEnv) (pre : List Child)
    (prev anchor sep bb : Child)
    (hch : e.st.children = pre ++ [prev, anchor, sep, bb])
    (hsh : e.st.shelfIndex = pre.length + 1)
    (hsb : kindFree ChildKind.searchBar e.st.children)
    (hkf : kindFree ChildKind.keyboard e.st.children)
    (hbb : bb.kind = ChildKind.bottomBar) :
    (toggleSearchBarHome g (some true) true e).map (fun x => x.st.children) =
      some (pre ++ [prev, anchor] ++ openedQuad g e.st.rect bb.rect e.st.nextId ++ [sep, bb]) ∧
    (toggleSearchBarHome g (some true) true e).map (fun x => x.st.children.length) =
      some (e.st.children.length + 4) ∧
    (toggleSearchBarHome g (some true) true e).map (fun x => x.st.children[x.st.shelfIndex]?) =
      some (some anchor) ∧
    (e.st.query = none →
      (toggleSearchBarHome g (some true) true e).map HomeEnv.hub =
        some (e.hub ++ [Event.focus (some ViewId.siteTextSearchInput)])) := by
  have hsepk : sep.kind ≠ ChildKind.keyboard := hkf sep (by rw [hch]; simp)
  have h1 := toggleSearchBarHome_open_eq g e pre prev anchor sep bb hch hsh hsb hsepk hbb
  rw [h1]
  have hanch : (pre ++ [prev, anchor] ++ openedQuad g e.st.rect bb.rect e.st.nextId
      ++ [sep, bb])[pre.length + 1]? = some anchor := by
    rw [show pre ++ [prev, anchor] ++ openedQuad g e.st.rect bb.rect e.st.nextId ++ [sep, bb]
        = pre ++ ([prev, anchor] ++ (openedQuad g e.st.rect bb.rect e.st.nextId ++ [sep, bb]))
      from by simp]
    have := getq_append pre
      ([prev, anchor] ++ (openedQuad g e.st.rect bb.rect e.st.nextId ++ [sep, bb])) 1
    simpa using this
  refine ⟨rfl, ?_, ?_, ?_⟩
  · simp [hch, openedQuad]
  · show some ((pre ++ [prev, anchor] ++ openedQuad g e.st.rect bb.rect e.st.nextId
      ++ [sep, bb])[e.st.shelfIndex]?) = some (some anchor)
    rw [hsh, hanch]
  · intro hq
    rw [hq]
    simp

/-- Witness for C2 at the concrete closed home screen: opening inserts the
quad, grows the vector from 5 to 9, keeps the anchor untouched at index 2,
and emits the focus event. -/
theorem home_open_search_bar_transition_witness :
    (toggleSearchBarHome gC (some true) true env0).map (fun x => x.st.children.length) =
      some (env0.st.children.length + 4) ∧
    (toggleSearchBarHome gC (some true) true env0).map
        (fun x => x.st.children[x.st.shelfIndex]?) =
      some (some ⟨.fave, ⟨⟨0, 68⟩, ⟨600, 130⟩⟩, 3, none⟩) ∧
    (toggleSearchBarHome gC (some true) true env0).map HomeEnv.hub =
      some ([] ++ [Event.focus (some ViewId.siteTextSearchInput)]) := by
  have h := home_open_search_bar_transition gC env0
    [⟨.filler, rectC, 1, none⟩]
    ⟨.topBar, ⟨⟨0, 0⟩, ⟨600, 68⟩⟩, 2, none⟩
    ⟨.fave, ⟨⟨0, 68⟩, ⟨600, 130⟩⟩, 3, none⟩
    ⟨.filler, ⟨⟨0, 730⟩, ⟨600, 734⟩⟩, 4, none⟩
    ⟨.bottomBar, ⟨⟨0, 734⟩, ⟨600, 800⟩⟩, 5, none⟩
    (by decide) (by decide) (by decide) (by decide) rfl
  exact ⟨h.2.1, h.2.2.1, h.2.2.2 rfl⟩

/-- Counterexample for C2 as stated: on the concrete closed home screen the
open transition adds four children (5 to 9), not exactly two, and the
anchor's rectangle is unchanged rather than shrunk by the overlay height. -/
theorem home_open_search_bar_counterexample :
    (toggleSearchBarHome gC (some true) true env0).map (fun x => x.st.children.length) =
      some 9 ∧
    env0.st.children.length = 5 ∧
    (toggleSearchBarHome gC (some true) true env0).bind
        (fun x => x.st.children[2]?.map Child.rect) = some ⟨⟨0, 68⟩, ⟨600, 130⟩⟩ ∧
    env0.st.children[2]?.map Child.rect = some ⟨⟨0, 68⟩, ⟨600, 130⟩⟩ :=
  ⟨rfl, rfl, rfl, rfl⟩

/-- C3 (confirmed): forcing open an already-open overlay or forcing closed an
already-closed one is a no-op for the home search bar, the common main menu
and the works go-to-page dialog: state, rectangles and render queue are left
exactly as they were. -/
theorem overlay_toggle_idempotent (g : Geom) (u : Bool) (e : HomeEnv) (rect : Rectangle)
    (children : List Child) (rq : List RenderData) (nid : Nat) (ws : WorksState)
    (hub : List Event) (wrq : List RenderData) :
    ((∃ i, rlocate .searchBar e.st.children = some i) →
      toggleSearchBarHome g (some true) u e = some e) ∧
    (rlocate .searchBar e.st.children = none →
      toggleSearchBarHome g (some false) u e = some e) ∧
    ((∃ i, locateById .mainMenu children = some i) →
      toggleMainMenu g rect (some true) children rq nid = some (children, rq, nid)) ∧
    (locateById .mainMenu children = none →
      toggleMainMenu g rect (some false) children rq nid = some (children, rq, nid)) ∧
    ((∃ i, locateById .goToPage ws.children = some i) →
      toggleGoToPage g (some true) ws hub wrq = some (ws, hub, wrq)) ∧
    (locateById .goToPage ws.children = none →
      toggleGoToPage g (some false) ws hub wrq = some (ws, hub, wrq)) :=
  ⟨fun ⟨i, h⟩ => toggleSearchBarHome_forceOpen_noop g u e i h,
   fun h => toggleSearchBarHome_forceClose_noop g u e h,
   fun ⟨i, h⟩ => toggleMainMenu_forceOpen_noop g rect children rq nid i h,
   fun h => toggleMainMenu_forceClose_noop g rect children rq nid h,
   fun ⟨i, h⟩ => toggleGoToPage_forceOpen_noop g ws hub wrq i h,
   fun h => toggleGoToPage_forceClose_noop g ws hub wrq h⟩

/-- Witness for C3 at concrete states: force-open on an open overlay and
force-close on a closed one leave each container untouched. -/
theorem overlay_toggle_idempotent_witness :
    toggleSearchBarHome gC (some true) true searchOnlyEnv = some searchOnlyEnv ∧
    toggleSearchBarHome gC (some false) true env0 = some env0 ∧
    toggleMainMenu gC rectC (some true) menuChildren [] 60 = some (menuChildren, [], 60) ∧
    toggleMainMenu gC rectC (some false) closedHome.children [] 60 =
      some (closedHome.children, [], 60) ∧
    toggleGoToPage gC (some true) worksWithGoTo [] [] = some (worksWithGoTo, [], []) ∧
    toggleGoToPage gC (some false) worksFillerAfterShelf [] [] =
      some (worksFillerAfterShelf, [], []) := by
  have h1 := overlay_toggle_idempotent gC true searchOnlyEnv rectC menuChildren [] 60
    worksWithGoTo [] []
  have h2 := overlay_toggle_idempotent gC true env0 rectC closedHome.children [] 60
    worksFillerAfterShelf [] []
  exact ⟨h1.1 ⟨4, by decide⟩, h2.2.1 (by decide), h1.2.2.1 ⟨0, by decide⟩,
         h2.2.2.2.1 (by decide), h1.2.2.2.2.1 ⟨3, by decide⟩, h2.2.2.2.2.2 (by decide)⟩

/-- C4 (confirmed): `locate` returns the smallest index whose child has the
requested type and `rlocate` the largest; when no child has the type both
return `none`, absence being a normal outcome. -/
theorem locate_rlocate_lookup_correct (k : ChildKind) (cs : List Child) :
    (∀ i, locate k cs = some i → ∃ c, cs[i]? = some c ∧ c.kind = k ∧
        ∀ j, j < i → ∀ c2, cs[j]? = some c2 → c2.kind ≠ k) ∧
    (∀ i, rlocate k cs = some i → ∃ c, cs[i]? = some c ∧ c.kind = k ∧
        ∀ j, i < j → ∀ c2, cs[j]? = some c2 → c2.kind ≠ k) ∧
    (locate k cs = none ↔ kindFree k cs) ∧
    (rlocate k cs = none ↔ kindFree k cs) :=
  ⟨fun _ h => locate_spec_some h, fun _ h => rlocate_spec_some h,
   locate_eq_none_iff, rlocate_eq_none_iff⟩

/-- Witness for C4 on a concrete vector with two faves: `locate` finds the
one at index 1, `rlocate` the one at index 3, and a type that never occurs
is reported absent. -/
theorem locate_rlocate_lookup_correct_witness :
    (∃ c, demoList[1]? = some c ∧ c.kind = ChildKind.fave ∧
      ∀ j, j < 1 → ∀ c2, demoList[j]? = some c2 → c2.kind ≠ ChildKind.fave) ∧
    (∃ c, demoList[3]? = some c ∧ c.kind = ChildKind.fave ∧
      ∀ j, 3 < j → ∀ c2, demoList[j]? = some c2 → c2.kind ≠ ChildKind.fave) ∧
    (locate ChildKind.menu demoList = none ↔ kindFree ChildKind.menu demoList) :=
  ⟨(locate_rlocate_lookup_correct ChildKind.fave demoList).1 1 (by decide),
   (locate_rlocate_lookup_correct ChildKind.fave demoList).2.1 3 (by decide),
   (locate_rlocate_lookup_correct ChildKind.menu demoList).2.2.1⟩

/-- C5 (corrected): on a home container with no keyboard child, handling
Focus(search input) performs exactly one keyboard insertion, but the
search-bar insertion is unconditional: `open_search_bar` runs as a whole
even when a search bar is already open, so a duplicate search bar is
created in that state; replaying the same Focus event is a no-op. -/
theorem home_focus_cascade (g : Geom) (e : HomeEnv) (pre : List Child)
    (prev anchor sep bb : Child)
    (hch : e.st.children = pre ++ [prev, anchor, sep, bb])
    (hsh : e.st.shelfIndex = pre.length + 1)
    (hfoc : e.st.focus ≠ some ViewId.siteTextSearchInput)
    (hsb : kindFree ChildKind.searchBar e.st.children)
    (hkf : kindFree ChildKind.keyboard e.st.children)
    (hbb : bb.kind = ChildKind.bottomBar) :
    ∃ e2, handleFocusHome g (some ViewId.siteTextSearchInput) e = some e2 ∧
      countKind .keyboard e2.st.children = countKind .keyboard e.st.children + 1 ∧
      countKind .searchBar e2.st.children = countKind .searchBar e.st.children + 1 ∧
      handleFocusHome g (some ViewId.siteTextSearchInput) e2 = some e2 :=
  home_focus_cascade_helper g e pre prev anchor sep bb hch hsh hfoc hsb hkf hbb

/-- Witness for C5 at the concrete closed home screen: the focus cascade adds
one keyboard and one search bar, and replaying the event changes nothing. -/
theorem home_focus_cascade_witness :
    ∃ e2, handleFocusHome gC (some ViewId.siteTextSearchInput) env0 = some e2 ∧
      countKind .keyboard e2.st.children = countKind .keyboard env0.st.children + 1 ∧
      countKind .searchBar e2.st.children = countKind .searchBar env0.st.children + 1 ∧
      handleFocusHome gC (some ViewId.siteTextSearchInput) e2 = some e2 :=
  home_focus_cascade gC env0
    [⟨.filler, rectC, 1, none⟩]
    ⟨.topBar, ⟨⟨0, 0⟩, ⟨600, 68⟩⟩, 2, none⟩
    ⟨.fave, ⟨⟨0, 68⟩, ⟨600, 130⟩⟩, 3, none⟩
    ⟨.filler, ⟨⟨0, 730⟩, ⟨600, 734⟩⟩, 4, none⟩
    ⟨.bottomBar, ⟨⟨0, 734⟩, ⟨600, 800⟩⟩, 5, none⟩
    (by decide) (by decide) (by decide) (by decide) (by decide) (by decide)

/-- Counterexample for C5 as stated: in the search-only state (no keyboard,
search bar open) the Focus cascade inserts a SECOND search bar, violating
"a search-bar-open transition only if the search bar is not already open". -/
theorem home_focus_duplicate_search_bar_counterexample :
    countKind .searchBar searchOnlyEnv.st.children = 1 ∧
    (handleFocusHome gC (some ViewId.siteTextSearchInput) searchOnlyEnv).map
        (fun e2 => countKind .searchBar e2.st.children) = some 2 :=
  ⟨rfl, rfl⟩

/-- C6 (corrected): dismissing the keyboard on a home container in the
search-with-keyboard state drains exactly the keyboard and its separator (a
contiguous pair) and resets context.kb_rect to the default rectangle; the
expose-mode request covering the vacated band is enqueued only when the
dismissal is invoked with the update flag set (the submit path passes
update = false and enqueues nothing here). -/
theorem home_keyboard_dismiss (g : Geom) (vid : Option ViewId) (e : HomeEnv)
    (P : List Child) (w x y z sep bb : Child)
    (hch : e.st.children = P ++ [w, x, y, z, sep, bb])
    (hsh : e.st.shelfIndex + 1 = P.length)
    (hx : x.kind = ChildKind.searchBar)
    (hz : z.kind = ChildKind.keyboard)
    (hsepk : sep.kind ≠ ChildKind.keyboard)
    (hbbk : bb.kind ≠ ChildKind.keyboard) :
    toggleKeyboardHome g false true vid e =
      some ⟨{ e.st with
              children := P ++ [{ w with rect := w.rect.translate ⟨0, (z.rect.absorb y.rect).height⟩ },
                                { x with rect := x.rect.translate ⟨0, (z.rect.absorb y.rect).height⟩ },
                                sep, bb] },
            e.hub ++ [Event.focus none],
            e.rq ++ [RenderData.expose
                       ⟨⟨e.st.rect.rmin.x, w.rect.rmin.y⟩,
                        ⟨e.st.rect.rmax.x, w.rect.rmin.y + (z.rect.absorb y.rect).height⟩⟩ .gui,
                     RenderData.req w.id (w.rect.translate ⟨0, (z.rect.absorb y.rect).height⟩) .gui,
                     RenderData.req x.id (x.rect.translate ⟨0, (z.rect.absorb y.rect).height⟩) .gui],
            Rectangle.zero⟩ := by
  have h := toggleKeyboardHome_dismiss_eq g true vid e P w x y z sep bb hch hsh hx hz hsepk hbbk
  simpa using h

/-- Witness for C6 at the concrete search-with-keyboard home screen. -/
theorem home_keyboard_dismiss_witness :
    toggleKeyboardHome gC false true none swkEnv =
      some ⟨{ swkEnv.st with
              children := [⟨.filler, rectC, 1, none⟩,
                           ⟨.topBar, ⟨⟨0, 0⟩, ⟨600, 68⟩⟩, 2, none⟩,
                           ⟨.fave, ⟨⟨0, 68⟩, ⟨600, 130⟩⟩, 3, none⟩,
                           ⟨.filler, ⟨⟨0, 666⟩, ⟨600, 670⟩⟩, 9, none⟩,
                           ⟨.searchBar, ⟨⟨0, 670⟩, ⟨600, 738⟩⟩, 8, some .siteTextSearchInput⟩,
                           ⟨.filler, ⟨⟨0, 730⟩, ⟨600, 734⟩⟩, 4, none⟩,
                           ⟨.bottomBar, ⟨⟨0, 734⟩, ⟨600, 800⟩⟩, 5, none⟩] },
            [Event.focus none],
            [RenderData.expose ⟨⟨0, 296⟩, ⟨600, 666⟩⟩ .gui,
             RenderData.req 9 ⟨⟨0, 666⟩, ⟨600, 670⟩⟩ .gui,
             RenderData.req 8 ⟨⟨0, 670⟩, ⟨600, 738⟩⟩ .gui],
            Rectangle.zero⟩ := by
  have h := home_keyboard_dismiss gC none swkEnv
    [⟨.filler, rectC, 1, none⟩,
     ⟨.topBar, ⟨⟨0, 0⟩, ⟨600, 68⟩⟩, 2, none⟩,
     ⟨.fave, ⟨⟨0, 68⟩, ⟨600, 130⟩⟩, 3, none⟩]
    ⟨.filler, ⟨⟨0, 296⟩, ⟨600, 300⟩⟩, 9, none⟩
    ⟨.searchBar, ⟨⟨0, 300⟩, ⟨600, 368⟩⟩, 8, some .siteTextSearchInput⟩
    ⟨.filler, ⟨⟨0, 364⟩, ⟨600, 368⟩⟩, 7, none⟩
    ⟨.keyboard, ⟨⟨0, 368⟩, ⟨600, 734⟩⟩, 6, none⟩
    ⟨.filler, ⟨⟨0, 730⟩, ⟨600, 734⟩⟩, 4, none⟩
    ⟨.bottomBar, ⟨⟨0, 734⟩, ⟨600, 800⟩⟩, 5, none⟩
    rfl rfl rfl rfl (by decide) (by decide)
  exact h

/-- Counterexample for C6 as stated: the submit-path dismissal (update set to
false) drains the keyboard pair and clears context.kb_rect but enqueues NO
expose-mode request: the render queue stays empty. -/
theorem home_keyboard_dismiss_no_expose_counterexample :
    countKind .keyboard swkEnv.st.children = 1 ∧
    (toggleKeyboardHome gC false false none swkEnv).map
        (fun e2 => (countKind .keyboard e2.st.children, e2.rq, e2.kbRect)) =
      some (0, [], Rectangle.zero) ∧
    swkEnv.kbRect ≠ Rectangle.zero :=
  ⟨rfl, rfl, by decide⟩

/-- C7 (corrected): when the child vector is too short for the
`shelf_index` arithmetic in `toggle_keyboard` (works: `shelf_index + 1`,
home: `shelf_index + 2` assumed to exist), the indexed access panics, i.e.
execution aborts instead of continuing; but a position that EXISTS and
merely holds an unexpected type does not abort at these sites, because the
`is::<T>()` test simply returns false and execution continues. -/
theorem toggle_keyboard_shape_violation_panics (g : Geom) (enable update : Bool)
    (vid : Option ViewId) (s : WorksState) (hub : List Event) (rq : List RenderData)
    (e : HomeEnv)
    (hw : s.children.length ≤ s.shelfIndex + 1)
    (hh : e.st.children.length ≤ e.st.shelfIndex + 2) :
    worksToggleKeyboard g enable update vid s hub rq = none ∧
    toggleKeyboardHome g enable update vid e = none :=
  toggleKeyboard_short_vector_panics g enable update vid s hub rq e hw hh

/-- Witness for C7: on the freshly built works screen (two children, shelf
index 1) and on a home screen with a stale shelf index, toggling the
keyboard panics. -/
theorem toggle_keyboard_shape_violation_panics_witness :
    worksToggleKeyboard gC true true none worksShort [] [] = none ∧
    toggleKeyboardHome gC true true none staleShelfHomeEnv = none :=
  toggle_keyboard_shape_violation_panics gC true true none worksShort [] []
    staleShelfHomeEnv (by decide) (by decide)

/-- Counterexample for C7 as stated: a works screen whose child at
`shelf_index + 1` exists but is a filler rather than the presumed search bar
does NOT abort: the keyboard toggle runs to completion. -/
theorem works_toggle_keyboard_wrong_type_continues :
    (worksFillerAfterShelf.children[worksFillerAfterShelf.shelfIndex + 1]?.map Child.kind) =
      some ChildKind.filler ∧
    (worksToggleKeyboard gC true true none worksFillerAfterShelf [] []).isSome = true :=
  ⟨rfl, rfl⟩

/-- C8 (confirmed): a freshly constructed home screen has the background
filler as its first child, so `locate<Filler>` returns 0; and when at least
one favourite entry is supplied, `rlocate<Fave>` returns exactly the index
of the last favourite pushed during construction (which is also the anchor
index). -/
theorem home_new_background_and_last_fave (g : Geom) (rect : Rectangle) (loggedIn : Bool)
    (faves : List String) (rq : List RenderData) :
    ∃ st rq2 lastIdx, homeNew g rect loggedIn faves rq = some (st, rq2, lastIdx) ∧
      locate .filler st.children = some 0 ∧
      (faves ≠ [] → rlocate .fave st.children = lastIdx ∧ lastIdx = some st.shelfIndex) :=
  home_new_lookup g rect loggedIn faves rq

/-- Witness for C8 at a concrete construction with one favourite, logged
in. -/
theorem home_new_background_and_last_fave_witness :
    ∃ st rq2 lastIdx, homeNew gC rectC true ["Test Fave"] [] = some (st, rq2, lastIdx) ∧
      locate .filler st.children = some 0 ∧
      rlocate .fave st.children = lastIdx ∧ lastIdx = some st.shelfIndex := by
  obtain ⟨st, rq2, lastIdx, h1, h2, h3⟩ :=
    home_new_background_and_last_fave gC rectC true ["Test Fave"] []
  exact ⟨st, rq2, lastIdx, h1, h2, (h3 (by decide)).1, (h3 (by decide)).2⟩

/-- C9 (confirmed): `shift` translates the rectangle of the view and of
every descendant by exactly the delta and changes nothing else; shifting by
the delta and then by its negation restores the tree exactly. -/
theorem shift_translates_all_rects_and_roundtrips (t : ViewTree) (d : Point) :
    rectsT (shiftT d t) = (rectsT t).map (fun r => r.translate d) ∧
    shiftT (-d) (shiftT d t) = t :=
  ⟨shiftT_rects d t, shiftT_cancel d t⟩

/-- C10 (confirmed): with a positive page count and a valid current page,
navigation keeps `current_page < pages_count`: an out-of-range `go_to_page`
target is ignored with no state change and no queue write, and
`go_to_neighbor` never moves past either end. -/
theorem works_page_navigation_invariant (g : Geom) (s : WorksState) (rq : List RenderData)
    (hpc : 0 < s.pagesCount) (hcur : s.currentPage < s.pagesCount) :
    (∀ i, s.pagesCount ≤ i → goToPage g i s rq = some (s, rq)) ∧
    (∀ i s2 rq2, goToPage g i s rq = some (s2, rq2) → s2.currentPage < s2.pagesCount) ∧
    (∀ dir s2 rq2, goToNeighbor g dir s rq = some (s2, rq2) → s2.currentPage < s2.pagesCount) :=
  ⟨fun i hi => works_goToPage_invalid g s rq i hi,
   fun i s2 rq2 h => (works_goToPage_bound g s rq hcur i s2 rq2 h).1,
   fun dir s2 rq2 h => (works_goToNeighbor_bound g s rq hpc hcur dir s2 rq2 h).1⟩

/-- Witness for C10 at the concrete works screen with five pages: page 7 is
out of range and ignored. -/
theorem works_page_navigation_invariant_witness :
    goToPage gC 7 worksFillerAfterShelf [] = some (worksFillerAfterShelf, []) :=
  (works_page_navigation_invariant gC worksFillerAfterShelf [] (by decide) (by decide)).1
    7 (by decide)
